import Mathlib

/-!
Verification of the TaxHelp Telegram bot (session-driven wizard engine with a
resilient backend-synchronization layer).

This file gives a shallow embedding, in Lean, of the parts of the TypeScript
source that the verified properties speak about:

* `src/utils/validators.ts` — input validators (email, date, phone);
* `src/services/apiClient.ts` — the retrying API client: failure
  classification (`shouldRetryStatus`, `shouldRetryError`, `isNetworkError`),
  exponential backoff (`calculateRetryDelay`) and the bounded retry loop of
  `ApiClient.request`;
* `src/session.ts` — the TTL-evicting in-memory `SessionStore`;
* `src/index.ts` — the registration wizard step machine
  (`handleRegistrationResponse`, `handleCountryInput`, `handleStateInput`,
  `persistLocationSelection`, `finalizeRegistration`);
* `src/utils/sync.ts` — the write-behind sync queues
  (`enqueueProfilePatch`, `tryFlushRegistrationQueue`, `tryFlushProfileQueue`).

Conventions of the embedding:

* JavaScript strings are Lean `String`s and all string manipulation is done on
  the underlying `Char` list so that everything computes by `decide`/`rfl`.
* Machine numbers are `Nat` (ids, timestamps, HTTP statuses, delays); the
  source only ever uses them as non-negative integers, and JavaScript
  subtraction guarded by `>` comparisons agrees with truncated `Nat`
  subtraction in every use below.
* `fetch` and the backend are nondeterministic; they enter the model as an
  explicit oracle (`Nat → AttemptOutcome` for the retry loop, per-target
  outcome functions for the queue drains).
* Thrown JavaScript errors are modelled by the inductive `JsError` (an error
  object with its `name`, `code`, `errno`, `message` fields, the
  `instanceof` facts the source tests, and an optional `cause` chain).
-/

namespace TaxBot

/-! ### Character/string helpers (JS semantics on `Char` lists) -/

/-- Substring test used to model JavaScript `String.prototype.includes`. -/
def hasSubList (needle : List Char) : List Char → Bool
  | [] => needle.isEmpty
  | c :: rest => List.isPrefixOf needle (c :: rest) || hasSubList needle rest

/-- Models `haystack.includes(needle)` on strings. -/
def strIncludes (haystack needle : String) : Bool :=
  hasSubList needle.data haystack.data

/-- Models `s.toLowerCase()` (the source only lower-cases ASCII option labels). -/
def strLower (s : String) : String :=
  String.mk (s.data.map Char.toLower)

/-- Strip whitespace from both ends of a character list. -/
def trimCharList (l : List Char) : List Char :=
  ((l.dropWhile Char.isWhitespace).reverse.dropWhile Char.isWhitespace).reverse

/-- Models `s.trim()`: strip whitespace from both ends. -/
def strTrim (s : String) : String :=
  String.mk (trimCharList s.data)

/-- Case-insensitive equality, as in `a.toLowerCase() === b.toLowerCase()`. -/
def lowerEq (a b : String) : Bool :=
  strLower a == strLower b

/-! ### `src/utils/validators.ts` -/

/-- Models `isValidEmail`: the regex `^[^\s@]+@[^\s@]+\.[^\s@]+$` — exactly one `@`,
no whitespace, a non-empty local part and a domain with an interior dot. -/
def isValidEmail (email : String) : Bool :=
  let cs := email.data
  let atCount := (cs.filter (fun ch => ch == '@')).length
  if atCount ≠ 1 then false
  else
    let localPart := cs.takeWhile (fun ch => ch ≠ '@')
    let domain := (cs.dropWhile (fun ch => ch ≠ '@')).drop 1
    !localPart.isEmpty &&
    cs.all (fun ch => !ch.isWhitespace) &&
    ((domain.drop 1).dropLast).contains '.'

def isLeapYear (y : Nat) : Bool :=
  (y % 4 == 0 && y % 100 != 0) || y % 400 == 0

def daysInMonth (y m : Nat) : Nat :=
  if m = 2 then (if isLeapYear y then 29 else 28)
  else if m = 4 ∨ m = 6 ∨ m = 9 ∨ m = 11 then 30
  else 31

def digitVal (c : Char) : Nat := c.toNat - 48

/-- Models `isValidDate`: the regex `^\d{4}-\d{2}-\d{2}$` plus the ECMAScript
`new Date(value)` round-trip check: a date-only ISO string with out-of-range
components parses to an invalid date, so the check accepts exactly the real
proleptic-Gregorian calendar dates in that format. -/
def isValidDate (value : String) : Bool :=
  match value.data with
  | [y1, y2, y3, y4, h1, m1, m2, h2, d1, d2] =>
    if y1.isDigit && y2.isDigit && y3.isDigit && y4.isDigit &&
       h1 == '-' && m1.isDigit && m2.isDigit && h2 == '-' &&
       d1.isDigit && d2.isDigit then
      let y := digitVal y1 * 1000 + digitVal y2 * 100 + digitVal y3 * 10 + digitVal y4
      let m := digitVal m1 * 10 + digitVal m2
      let d := digitVal d1 * 10 + digitVal d2
      decide (1 ≤ m) && decide (m ≤ 12) && decide (1 ≤ d) &&
        decide (d ≤ daysInMonth y m)
    else false
  | _ => false

/-- Models `normalizePhone`: keep digits and `+`, then rewrite a leading `00` to `+`. -/
def normalizePhone (input : String) : String :=
  let kept := input.data.filter (fun ch => ch.isDigit || ch == '+')
  String.mk (match kept with
    | '0' :: '0' :: rest => '+' :: rest
    | l => l)

/-- Models `isValidPhone`: between 8 and 20 digits. -/
def isValidPhone (phone : String) : Bool :=
  let digits := phone.data.filter Char.isDigit
  decide (8 ≤ digits.length) && decide (digits.length ≤ 20)

/-- Modelled from the spec: the resilient variant of
`src/utils/validators.ts` (the module exporting `isValidStateRegion`, imported
by `src/index.ts`) is not under `src/`; the spec only requires free-text
state/region entries such as "Berlin" to pass a validate-and-retry loop, so
the predicate is kept opaque: the wizard model below takes it as an explicit
`stateValid` parameter and this definition is merely its default
instantiation (a non-degenerate free-text check accepting "Berlin"). -/
def isValidStateRegion (value : String) : Bool :=
  decide (2 ≤ (strTrim value).data.length)

/-! ### `src/services/apiClient.ts` — error model and classification -/

/-- The observable fields of a thrown JavaScript error object: the
`instanceof` facts the client tests, and the `name`/`status`/`code`/`errno`/
`message` properties (`Option` = property absent / not a string). -/
structure JsErrorData where
  isErrorInst : Bool
  isTypeErrorInst : Bool
  isApiErrorInst : Bool
  errName : String
  status : Nat
  code : Option String
  errno : Option String
  message : Option String

/-- An error object together with its (acyclic) `cause` chain.  The source
guards `cause !== error` against direct self-reference only; the inductive
structure makes every chain finite. -/
inductive JsError where
  | mk (info : JsErrorData) (cause : Option JsError)

def JsError.info : JsError → JsErrorData
  | .mk i _ => i

def JsError.cause : JsError → Option JsError
  | .mk _ c => c

/-- The `NETWORK_ERROR_CODES` set of the resilient client. -/
def NETWORK_ERROR_CODES : List String :=
  ["ECONNREFUSED", "ECONNRESET", "ENOTFOUND", "EAI_AGAIN", "ETIMEDOUT",
   "EHOSTUNREACH", "ENETUNREACH", "EHOSTDOWN", "ECONNABORTED", "EPIPE",
   "ABORT_ERR", "UND_ERR_CONNECT", "UND_ERR_CONNECT_TIMEOUT",
   "UND_ERR_SOCKET", "UND_ERR_HEADERS_TIMEOUT"]

/-- Models `isAbortError`: an `Error` named `AbortError` or with code `ABORT_ERR`. -/
def isAbortErrorData (e : JsErrorData) : Bool :=
  e.isErrorInst && (e.errName == "AbortError" || e.code == some "ABORT_ERR")

/-- Models `hasNetworkCode`: a string `code` or `errno` in `NETWORK_ERROR_CODES`. -/
def hasNetworkCodeData (e : JsErrorData) : Bool :=
  (match e.code with
   | some c => NETWORK_ERROR_CODES.contains c
   | none => false) ||
  (match e.errno with
   | some c => NETWORK_ERROR_CODES.contains c
   | none => false)

/-- Models `messageLooksNetworkRelated`. -/
def messageLooksNetworkRelated (message : String) : Bool :=
  let normalized := strLower message
  strIncludes normalized "network" || strIncludes normalized "fetch failed" ||
  strIncludes normalized "timed out" || strIncludes normalized "timeout" ||
  strIncludes normalized "enotfound" || strIncludes normalized "econnrefused"

def messageNetData (e : JsErrorData) : Bool :=
  match e.message with
  | some m => messageLooksNetworkRelated m
  | none => false

/-- The three `ApiError` codes the client treats as transient. -/
def transientApiCode (code : Option String) : Bool :=
  code == some "network_error" || code == some "timeout" ||
  code == some "health_check_failed"

/-- Models `ApiClient.shouldRetryError`: note that the `cause` chain is followed
*recursively* (the source calls itself on `error.cause`). -/
def shouldRetryError : JsError → Bool
  | .mk info ocause =>
    if info.isApiErrorInst then transientApiCode info.code
    else if isAbortErrorData info then true
    else if info.isTypeErrorInst then true
    else if hasNetworkCodeData info then true
    else if messageNetData info then true
    else
      match ocause with
      | some c => shouldRetryError c
      | none => false

/-- Models `isNetworkError` (module-level classifier used by the wizard engine and
the sync queues): unlike `shouldRetryError` it inspects the `cause` only one
level deep. -/
def isNetworkError (err : JsError) : Bool :=
  match err with
  | .mk info ocause =>
    if info.isApiErrorInst && transientApiCode info.code then true
    else if isAbortErrorData info then true
    else if info.isTypeErrorInst && messageNetData info then true
    else if hasNetworkCodeData info then true
    else if (match ocause with
             | some (.mk cinfo _) =>
               hasNetworkCodeData cinfo || isAbortErrorData cinfo ||
               (cinfo.isErrorInst && messageNetData cinfo)
             | none => false) then true
    else messageNetData info

/-- Build an `ApiError` (an `Error` instance named "ApiError"). -/
def mkApiError (status : Nat) (code : Option String) (message : Option String)
    (cause : Option JsError) : JsError :=
  .mk { isErrorInst := true, isTypeErrorInst := false, isApiErrorInst := true,
        errName := "ApiError", status := status, code := code, errno := none,
        message := message } cause

/-- Models `ApiClient.normalizeFetchError` (with its `code` argument, default
`"network_error"` at the call sites in the retry loop). -/
def normalizeFetchError (e : JsError) (code : String) : JsError :=
  if e.info.isApiErrorInst then e
  else if isAbortErrorData e.info then
    mkApiError 504 (some (if code = "network_error" then "timeout" else code))
      (some "Request timed out") (some e)
  else if e.info.isTypeErrorInst || hasNetworkCodeData e.info ||
          shouldRetryError e then
    mkApiError 503 (some code) (some "Network request failed") (some e)
  else if e.info.isErrorInst then
    mkApiError 500 (some code)
      (some (match e.info.message with
             | some m => if m = "" then "Request failed" else m
             | none => "Request failed")) (some e)
  else mkApiError 500 (some code) (some "Request failed") none

/-! ### `src/services/apiClient.ts` — the bounded retry loop -/

/-- Models `ApiClient.shouldRetryStatus`: HTTP 5xx or 429. -/
def shouldRetryStatus (status : Nat) : Bool :=
  decide (500 ≤ status) || status == 429

/-- Models `ApiClient.calculateRetryDelay`: `Math.round(baseDelay * 2 ** attempt)`
(exact on integer base delays). -/
def calculateRetryDelay (baseDelay attempt : Nat) : Nat :=
  baseDelay * 2 ^ attempt

/-- What one `fetch` attempt observably does: an `ok` response (with an empty
body, or a body that does/does not parse as JSON), a non-`ok` response
(status, parsed structured error body fields, status text), or a thrown
error. -/
inductive AttemptOutcome where
  | success (bodyEmpty : Bool) (jsonOk : Bool) (status : Nat)
  | httpError (status : Nat) (bodyCode : Option String)
      (bodyMessage : Option String) (statusText : Option String)
  | fetchError (e : JsError)

/-- The result `ApiClient.request` surfaces: a parsed value (or the explicit
no-content result), or a thrown `ApiError`. -/
inductive ReqResult where
  | ok (noContent : Bool)
  | fail (e : JsError)

/-- One attempt, classified: `done` ends the loop now; `retryable` retries if
attempts remain and otherwise surfaces the same error. -/
inductive OneShot where
  | done (r : ReqResult)
  | retryable (r : ReqResult)

/-- Computes `body?.message || response.statusText || "Request failed"` (empty strings
are falsy). -/
def httpErrorMessage (bodyMessage statusText : Option String) : String :=
  match bodyMessage with
  | some m => if m = "" then (match statusText with
      | some st => if st = "" then "Request failed" else st
      | none => "Request failed") else m
  | none =>
    match statusText with
    | some st => if st = "" then "Request failed" else st
    | none => "Request failed"

/-- Classify one attempt exactly as the body of the `for` loop in
`ApiClient.request` does: a non-`ok` response retries iff `shouldRetryStatus`;
a malformed 2xx body is a terminal `invalid_response`; a thrown `ApiError` is
re-thrown; any other thrown error retries iff `shouldRetryError` and is
otherwise normalized. -/
def classifyOutcome : AttemptOutcome → OneShot
  | .success bodyEmpty jsonOk status =>
    if bodyEmpty then .done (.ok true)
    else if jsonOk then .done (.ok false)
    else .done (.fail (mkApiError (if status = 0 then 500 else status)
      (some "invalid_response") (some "Invalid server response") none))
  | .httpError status bodyCode bodyMessage statusText =>
    let e := mkApiError status bodyCode
      (some (httpErrorMessage bodyMessage statusText)) none
    if shouldRetryStatus status then .retryable (.fail e) else .done (.fail e)
  | .fetchError e =>
    if e.info.isApiErrorInst then .done (.fail e)
    else if shouldRetryError e then
      .retryable (.fail (normalizeFetchError e "network_error"))
    else .done (.fail (normalizeFetchError e "network_error"))

/-- The trace of one `ApiClient.request` call: how many `fetch` attempts were
made, the backoff delays that were awaited (in order), and the surfaced
result. -/
structure ReqTrace where
  attemptsUsed : Nat
  delays : List Nat
  result : ReqResult

/-- The retry loop `for (let attempt = 0; attempt <= retryAttempts; ...)`:
`attempt` is the current 0-indexed attempt, `remaining` the number of further
attempts allowed (`retryAttempts - attempt`); before each retried attempt the
loop awaits `calculateRetryDelay(retryDelayMs, attempt)`. -/
def requestAux (delayMs : Nat) (outcomes : Nat → AttemptOutcome) :
    Nat → Nat → ReqTrace
  | attempt, 0 =>
    match classifyOutcome (outcomes attempt) with
    | .done r => ⟨attempt + 1, [], r⟩
    | .retryable r => ⟨attempt + 1, [], r⟩
  | attempt, remaining + 1 =>
    match classifyOutcome (outcomes attempt) with
    | .done r => ⟨attempt + 1, [], r⟩
    | .retryable _ =>
      let rest := requestAux delayMs outcomes (attempt + 1) remaining
      ⟨rest.attemptsUsed, calculateRetryDelay delayMs attempt :: rest.delays,
       rest.result⟩

/-- Models `ApiClient.request` with explicit `retryAttempts`/`retryDelayMs` options
(defaults 2 and 500 in the source) against an oracle giving the outcome of
each attempt. -/
def request (retryAttempts delayMs : Nat) (outcomes : Nat → AttemptOutcome) :
    ReqTrace :=
  requestAux delayMs outcomes 0 retryAttempts

/-! ### Data model

The resilient variant's `types.ts` is not itself under `src/` (the `types.ts`
present belongs to the simpler client variant), so the record shapes below
follow the fields the resilient `index.ts`/`sync.ts`/`session.ts` actually
read and write, together with the spec's data-model section. -/

/-- The server-side user representation (`UserProfile`). -/
structure UserProfile where
  id : String
  fullName : String
  email : String
  phone : Option String
  dob : Option String
  filingStatus : Option String
  incomeType : Option String
  country : Option String
  stateRegion : Option String
  language : String
deriving DecidableEq, Repr

/-- A `Partial<UserProfile>` PATCH payload: exactly the profile fields the
bot ever patches; a `none` field is an absent key. -/
structure ProfilePatch where
  fullName : Option String := none
  phone : Option String := none
  filingStatus : Option String := none
  incomeType : Option String := none
  country : Option String := none
  stateRegion : Option String := none
deriving DecidableEq, Repr

/-- Whether `Object.keys(payload)` is non-empty. -/
def ProfilePatch.hasFields (p : ProfilePatch) : Bool :=
  p.fullName.isSome || p.phone.isSome || p.filingStatus.isSome ||
  p.incomeType.isSome || p.country.isSome || p.stateRegion.isSome

/-- The JavaScript spread `\x7b ...a, ...b \x7d`: keys present in `b` win. -/
def ProfilePatch.merge (a b : ProfilePatch) : ProfilePatch where
  fullName := match b.fullName with | some v => some v | none => a.fullName
  phone := match b.phone with | some v => some v | none => a.phone
  filingStatus := match b.filingStatus with | some v => some v | none => a.filingStatus
  incomeType := match b.incomeType with | some v => some v | none => a.incomeType
  country := match b.country with | some v => some v | none => a.country
  stateRegion := match b.stateRegion with | some v => some v | none => a.stateRegion

/-- The collected registration field values (`registration.data`, a
`Partial<RegistrationPayload>`). -/
structure RegData where
  phone : Option String := none
  fullName : Option String := none
  email : Option String := none
  dob : Option String := none
  country : Option String := none
  stateRegion : Option String := none
  filingStatus : Option String := none
  incomeType : Option String := none
  language : String := "en"
  telegramId : Nat := 0
deriving DecidableEq, Repr

/-- Registration `WizardState` (`SessionRegistrationState`). -/
structure RegState where
  stepIndex : Nat
  data : RegData
  phoneVerified : Bool
  stateRetryCount : Nat := 0
deriving DecidableEq, Repr

/-- Login `WizardState` (`SessionLoginState`). -/
structure LoginState where
  stepIndex : Nat
  email : Option String := none
  password : Option String := none
deriving DecidableEq, Repr

/-- UI pagination cursors (`session.ui`); an absent cursor is `none`
(the source reads them as `ui.countryPage ?? 0`). -/
structure UiState where
  countryPage : Option Nat := none
  statePage : Option Nat := none
deriving DecidableEq, Repr

inductive SessionMode where
  | idle | registration | login | filing | ai | profile | reminder
deriving DecidableEq, Repr

/-- The `SessionData` record (the fields the verified components touch). -/
structure SessionData where
  chatId : Nat
  telegramId : Nat
  language : String
  jwt : Option String := none
  profile : Option UserProfile := none
  mode : SessionMode
  registration : Option RegState := none
  login : Option LoginState := none
  pendingRegistration : Option RegData := none
  lastActivity : Nat
  ui : UiState := {}
deriving DecidableEq, Repr

/-! ### `src/session.ts` — the TTL-evicting session store

The backing `Map<number, SessionData>` is modelled as a function from chat id
to an optional session; `now` stands for `Date.now()` at the call. -/

def SESSION_TTL_MS : Nat := 1000 * 60 * 60 * 12

def Store := Nat → Option SessionData

def Store.set (store : Store) (chatId : Nat) (s : SessionData) : Store :=
  fun c => if c = chatId then some s else store c

/-- Models `SessionStore.get`: report the session, lazily deleting (and reporting
absent) a session whose last activity is older than the TTL.  The truthiness
guard `session.lastActivity &&` is the `lastActivity ≠ 0` test.  Returns the
result together with the store after the lazy eviction. -/
def Store.get (now : Nat) (store : Store) (chatId : Nat) :
    Option SessionData × Store :=
  match store chatId with
  | none => (none, store)
  | some s =>
    if s.lastActivity ≠ 0 ∧ SESSION_TTL_MS < now - s.lastActivity then
      (none, fun c => if c = chatId then none else store c)
    else (some s, store)

/-- Models `SessionStore.create`: a fresh idle session with only identity, language
and `lastActivity` set. -/
def Store.create (now : Nat) (store : Store) (chatId telegramId : Nat)
    (language : String) : SessionData × Store :=
  let s : SessionData :=
    { chatId := chatId, telegramId := telegramId, language := language,
      mode := .idle, lastActivity := now }
  (s, store.set chatId s)

/-! ### `src/utils/sync.ts` — queues and coalescing enqueue -/

/-- A pending profile mutation (`ProfilePatchTask`). -/
structure ProfilePatchTask where
  chatId : Nat
  payload : ProfilePatch
deriving DecidableEq, Repr

/-- A pending registration (`RegistrationTask`); the payload is the full
assembled `RegistrationPayload`. -/
structure RegTask where
  chatId : Nat
  payload : RegData
deriving DecidableEq, Repr

/-- The `find`-and-mutate step of `enqueueProfilePatch`: merge into the first
entry for this chat, else append at the end. -/
def coalesceInto : List ProfilePatchTask → Nat → ProfilePatch →
    List ProfilePatchTask
  | [], chatId, payload => [⟨chatId, payload⟩]
  | t :: rest, chatId, payload =>
    if t.chatId = chatId then ⟨chatId, t.payload.merge payload⟩ :: rest
    else t :: coalesceInto rest chatId payload

/-- Models `enqueueProfilePatch`: drop empty payloads; otherwise coalesce
field-by-field into the pending entry for the chat (last write wins), or push
a new entry. -/
def enqueueProfilePatch (queue : List ProfilePatchTask) (chatId : Nat)
    (payload : ProfilePatch) : List ProfilePatchTask :=
  if ¬ payload.hasFields then queue
  else coalesceInto queue chatId payload

/-! ### `src/index.ts` — the registration wizard -/

inductive RegField where
  | phone | fullName | email | dob | country | stateRegion
  | filingStatus | incomeType
deriving DecidableEq, Repr

inductive StepType where
  | text | email | date | select | optional | phone | country | state
deriving DecidableEq, Repr

/-- A `RegistrationStep` (field plus value kind; prompts and option lists are
rendering-only). -/
structure RegStepDef where
  field : RegField
  type : StepType
deriving DecidableEq, Repr

/-- The ordered registration step list of `src/index.ts`. -/
def registrationSteps : List RegStepDef :=
  [⟨.phone, .phone⟩, ⟨.fullName, .text⟩, ⟨.email, .email⟩, ⟨.dob, .date⟩,
   ⟨.country, .country⟩, ⟨.stateRegion, .state⟩,
   ⟨.filingStatus, .select⟩, ⟨.incomeType, .select⟩]

/-- Models `findRegistrationStepIndex` (the source returns `-1` when absent, always
guarded by an `!== -1` test; `none` plays the role of `-1`). -/
def findRegistrationStepIdx (f : RegField) : Option Nat :=
  registrationSteps.findIdx? (fun st => st.field == f)

/-- Models `registration.data[step.field] = value` for the generic text-like steps. -/
def setRegDataField (d : RegData) (f : RegField) (v : Option String) : RegData :=
  match f with
  | .phone => { d with phone := v }
  | .fullName => { d with fullName := v }
  | .email => { d with email := v }
  | .dob => { d with dob := v }
  | .country => { d with country := v }
  | .stateRegion => { d with stateRegion := v }
  | .filingStatus => { d with filingStatus := v }
  | .incomeType => { d with incomeType := v }

/-- Navigation button texts from `src/utils/keyboard.ts`. -/
def NAV_PREV : String := "◀️ Prev"
def NAV_NEXT : String := "▶️ Next"
def NAV_CANCEL : String := "❌ Cancel"
def NAV_BACK : String := "🔙 Back"

def COUNTRY_PAGE_SIZE : Nat := 8
def STATE_PAGE_SIZE : Nat := 8

/-- Models `clampPage`: clamp a (possibly negative) page into `[0, totalPages-1]`. -/
def clampPage (page : Int) (totalPages : Nat) : Nat :=
  if totalPages ≤ 1 then 0
  else (min (max page 0) ((totalPages : Int) - 1)).toNat

/-- Models `Math.max(1, Math.ceil(len / pageSize))`. -/
def totalPagesFor (len pageSize : Nat) : Nat :=
  max 1 ((len + pageSize - 1) / pageSize)

/-- Models `cancelRegistrationFlow`: mode to idle, wizard state cleared, pagination
cursors reset.  The returned strings are the i18n keys of the messages the
handler itself sends (prompt re-rendering is not part of the state model). -/
def cancelRegistrationFlow (s : SessionData) : SessionData × List String :=
  ({ s with mode := .idle, registration := none, ui := {} },
   ["registration.cancelled"])

/-- Outcome of the `PATCH /users/me` attempt inside
`persistLocationSelection`. -/
inductive PersistOutcome where
  | online (profile : UserProfile)
  | failed (e : JsError)

/-- Models `persistLocationSelection`: try to persist the chosen location right
away; on failure (or with no token / no API base URL) enqueue a profile patch
and optimistically update the locally-visible profile.  Returns the session,
the profile queue, and whether the write went through online. -/
def persistLocationSelection (baseUrlSet : Bool) (s : SessionData)
    (country stateRegion : String) (upOutcome : PersistOutcome)
    (pq : List ProfilePatchTask) : SessionData × List ProfilePatchTask × Bool :=
  let attempted := s.jwt.isSome && baseUrlSet
  let (s1, online) :=
    if attempted then
      match upOutcome with
      | .online p => ({ s with profile := some p }, true)
      | .failed _ => (s, false)
    else (s, false)
  if online then (s1, pq, true)
  else
    let pq2 := enqueueProfilePatch pq s.chatId
      { country := some country, stateRegion := some stateRegion }
    let s2 := match s1.profile with
      | some p =>
        let p2 := { p with
          country := some country,
          stateRegion := some stateRegion }
        { s1 with profile := some p2 }
      | none => s1
    (s2, pq2, false)

/-- Models `handleCountryInput`.  `countries` is the `COUNTRIES` catalog
(`src/data/locations.ts`, which is not under `src/`, enters as a
parameter). -/
def handleCountryInput (countries : List String) (s : SessionData)
    (reg : RegState) (rawText : String) : SessionData × List String :=
  let text := strTrim rawText
  if text = "" then (s, ["registration.country_invalid"])
  else if text = NAV_CANCEL then cancelRegistrationFlow s
  else if text = NAV_BACK then
    ({ s with registration := some { reg with stepIndex := reg.stepIndex - 1 } }, [])
  else
    let totalPages := totalPagesFor countries.length COUNTRY_PAGE_SIZE
    if text = NAV_PREV then
      let page := clampPage ((s.ui.countryPage.getD 0 : Int) - 1) totalPages
      ({ s with ui := { s.ui with countryPage := some page } }, [])
    else if text = NAV_NEXT then
      let page := clampPage ((s.ui.countryPage.getD 0 : Int) + 1) totalPages
      ({ s with ui := { s.ui with countryPage := some page } }, [])
    else
      match countries.find? (fun c => lowerEq c text) with
      | none => (s, ["registration.country_invalid"])
      | some m =>
        let reg2 := { reg with
          data := { reg.data with country := some m, stateRegion := none },
          stateRetryCount := 0,
          stepIndex := reg.stepIndex + 1 }
        ({ s with registration := some reg2,
                  ui := { s.ui with statePage := some 0 } }, [])

/-- The shared success tail of `handleStateInput`: store the state/region,
advance the cursor, persist the location (online or queued) and report
which. -/
def commitStateSelection (baseUrlSet : Bool) (s : SessionData) (reg : RegState)
    (country value : String) (upOutcome : PersistOutcome)
    (pq : List ProfilePatchTask) :
    SessionData × List ProfilePatchTask × List String :=
  let reg2 := { reg with
    data := { reg.data with stateRegion := some value },
    stateRetryCount := 0, stepIndex := reg.stepIndex + 1 }
  let s1 := { s with registration := some reg2 }
  let (s2, pq2, online) :=
    persistLocationSelection baseUrlSet s1 country value upOutcome pq
  (s2, pq2,
   [if online then "registration.state_saved_online"
    else "registration.state_saved_offline"])

/-- Models `handleStateInput`.  `states` is the `STATES` catalog (a country with no
entry maps to `[]`, triggering the free-text fallback) and `stateValid` the
external `isValidStateRegion` predicate. -/
def handleStateInput (states : String → List String)
    (stateValid : String → Bool) (baseUrlSet : Bool) (s : SessionData)
    (reg : RegState) (rawText : String) (upOutcome : PersistOutcome)
    (pq : List ProfilePatchTask) :
    SessionData × List ProfilePatchTask × List String :=
  let text := strTrim rawText
  match reg.data.country with
  | none =>
    -- promptRegistrationStep: with no chosen country, the prompt jumps the
    -- wizard back to the country step.
    match findRegistrationStepIdx .country with
    | some countryIndex =>
      ({ s with registration := some { reg with stepIndex := countryIndex } },
       pq, [])
    | none => (s, pq, [])
  | some country =>
    if text = "" then (s, pq, ["registration.state_retry"])
    else if text = NAV_CANCEL then
      let (s2, msgs) := cancelRegistrationFlow s
      (s2, pq, msgs)
    else if text = NAV_BACK then
      match findRegistrationStepIdx .country with
      | some countryIndex =>
        ({ s with registration := some { reg with stepIndex := countryIndex } },
         pq, [])
      | none => (s, pq, [])
    else
      let list := states country
      if list ≠ [] then
        let totalPages := totalPagesFor list.length STATE_PAGE_SIZE
        if text = NAV_PREV then
          let page := clampPage ((s.ui.statePage.getD 0 : Int) - 1) totalPages
          ({ s with ui := { s.ui with statePage := some page } }, pq, [])
        else if text = NAV_NEXT then
          let page := clampPage ((s.ui.statePage.getD 0 : Int) + 1) totalPages
          ({ s with ui := { s.ui with statePage := some page } }, pq, [])
        else
          match list.find? (fun item => lowerEq item text) with
          | none => (s, pq, ["registration.state_invalid_choice"])
          | some m => commitStateSelection baseUrlSet s reg country m upOutcome pq
      else
        if ¬ stateValid text then
          let reg2 := { reg with stateRetryCount := reg.stateRetryCount + 1 }
          ({ s with registration := some reg2 }, pq, ["registration.state_retry"])
        else commitStateSelection baseUrlSet s reg country text upOutcome pq

/-- Models `handleRegistrationResponse`: dispatch a text message to the current
registration step.  The returned strings are the i18n keys of the messages
the handler sends (validation errors and step-commit confirmations; step
prompts are rendering-only). -/
def handleRegistrationResponse (countries : List String)
    (states : String → List String) (stateValid : String → Bool)
    (baseUrlSet : Bool) (s : SessionData) (input : String)
    (upOutcome : PersistOutcome) (pq : List ProfilePatchTask) :
    SessionData × List ProfilePatchTask × List String :=
  match s.registration with
  | none => (s, pq, [])
  | some reg =>
    match registrationSteps[reg.stepIndex]? with
    | none => (s, pq, [])
    | some step =>
      let text := strTrim input
      match step.type with
      | .phone =>
        if text = "" then (s, pq, ["registration.invalid_phone"])
        else
          let normalized := normalizePhone text
          if ¬ isValidPhone normalized then (s, pq, ["registration.invalid_phone"])
          else
            let reg2 := { reg with
              data := { reg.data with phone := some normalized },
              phoneVerified := true, stepIndex := reg.stepIndex + 1 }
            ({ s with registration := some reg2 }, pq, ["registration.phone_saved"])
      | .country =>
        let (s2, msgs) := handleCountryInput countries s reg text
        (s2, pq, msgs)
      | .state => handleStateInput states stateValid baseUrlSet s reg text upOutcome pq
      | .text =>
        if text = "" then (s, pq, ["error.generic"])
        else
          let reg2 := { reg with
            data := setRegDataField reg.data step.field (some text),
            stepIndex := reg.stepIndex + 1 }
          ({ s with registration := some reg2 }, pq, [])
      | .email =>
        if ¬ isValidEmail text then (s, pq, ["registration.invalid_email"])
        else
          let reg2 := { reg with
            data := setRegDataField reg.data step.field (some (strLower text)),
            stepIndex := reg.stepIndex + 1 }
          ({ s with registration := some reg2 }, pq, [])
      | .date =>
        if ¬ isValidDate text then (s, pq, ["registration.invalid_dob"])
        else
          let reg2 := { reg with
            data := setRegDataField reg.data step.field (some text),
            stepIndex := reg.stepIndex + 1 }
          ({ s with registration := some reg2 }, pq, [])
      | .select => (s, pq, [])
      | .optional => (s, pq, [])

/-- The acceptance condition of each step kind, read off the branches of
`handleRegistrationResponse`/`handleCountryInput`/`handleStateInput` (for
non-navigation inputs): exactly the inputs on which the handler commits the
field and advances the cursor. -/
def stepAccepts (countries : List String) (states : String → List String)
    (stateValid : String → Bool) (reg : RegState) (step : RegStepDef)
    (input : String) : Bool :=
  let text := strTrim input
  match step.type with
  | .phone => text != "" && isValidPhone (normalizePhone text)
  | .text => text != ""
  | .email => isValidEmail text
  | .date => isValidDate text
  | .country => countries.any (fun c => lowerEq c text)
  | .state =>
    match reg.data.country with
    | none => false
    | some country =>
      let list := states country
      if list ≠ [] then list.any (fun item => lowerEq item text)
      else text != "" && stateValid text
  | .select => false
  | .optional => false

/-- A navigation directive (back/cancel/pagination button text). -/
def isNavInput (text : String) : Bool :=
  text == NAV_PREV || text == NAV_NEXT || text == NAV_CANCEL || text == NAV_BACK

/-! ### `src/index.ts` — `finalizeRegistration` -/

/-- Outcome of the `POST /auth/register` call (`ApiClient.register` either
returns `\x7b token, user \x7d` or throws an `ApiError`). -/
inductive ApiOutcome where
  | ok (token : String) (user : UserProfile)
  | err (e : JsError)

/-- The payload assembled at finalize: the collected fields with the
session's language and telegram id (the explicit `payload.phone = phone`
re-writes the phone already present in the data). -/
def assembleRegistrationPayload (s : SessionData) (reg : RegState) : RegData :=
  { reg.data with language := s.language, telegramId := s.telegramId }

/-- The call-and-branch tail of `finalizeRegistration` (after the phone
guard).  The registration queue is threaded through to make explicit that no
branch enqueues anything: `src/index.ts` imports only `enqueueProfilePatch`
and `startProfileSync` from the sync module. -/
def finalizeRegistrationCall (s : SessionData) (reg : RegState)
    (outcome : ApiOutcome) (regQueue : List RegTask) :
    SessionData × List RegTask × List String :=
  match outcome with
  | .ok token user =>
    let s2 := { s with
      jwt := some token,
      profile := some user,
      registration := none,
      mode := SessionMode.idle,
      language := user.language }
    (s2, regQueue, ["registration.completed"])
  | .err e =>
    if e.info.isApiErrorInst ∧ e.info.status = 409 then
      let s2 := { s with
        registration := none,
        mode := SessionMode.login,
        login := some { stepIndex := 0 } }
      (s2, regQueue, ["registration.duplicate"])
    else if isNetworkError e then
      let reg2 := { reg with stepIndex := registrationSteps.length - 1 }
      ({ s with registration := some reg2 }, regQueue, ["error.network"])
    else (s, regQueue, ["error.generic"])

/-- Models `finalizeRegistration`: re-prompt the phone step when the phone is
missing (falsy) or unverified; otherwise issue the register call and branch
on its outcome (success / 409 conflict / transient network failure / other
terminal failure). -/
def finalizeRegistration (s : SessionData) (outcome : ApiOutcome)
    (regQueue : List RegTask) : SessionData × List RegTask × List String :=
  match s.registration with
  | none => (s, regQueue, [])
  | some reg =>
    if reg.data.phone.getD "" = "" ∨ reg.phoneVerified = false then
      match findRegistrationStepIdx .phone with
      | some phoneIndex =>
        ({ s with registration := some { reg with stepIndex := phoneIndex } },
         regQueue, ["registration.phone_required"])
      | none => finalizeRegistrationCall s reg outcome regQueue
    else finalizeRegistrationCall s reg outcome regQueue

/-! ### `src/utils/sync.ts` — the drain passes -/

/-- Outcome of the `PATCH /users/me` call for one queued profile patch (the
parsed response may be `undefined` for an empty body). -/
inductive PatchOutcome where
  | ok (profile : Option UserProfile)
  | err (e : JsError)

/-- The session patch a successful registration flush applies: token,
profile, language from the server, pending payload cleared, and a
registration-mode session moved to idle (`sessionStore.update` also
refreshes `lastActivity`). -/
def drainRegSuccessPatch (now : Nat) (token : String) (user : UserProfile)
    (s : SessionData) : SessionData :=
  { s with
    jwt := some token,
    profile := some user,
    language := user.language,
    pendingRegistration := none,
    mode := if s.mode = SessionMode.registration then SessionMode.idle else s.mode,
    lastActivity := now }

/-- The session patch a 409-conflicted registration flush applies: wizard
state discarded, session redirected into the login wizard at step 0. -/
def drainRegConflictPatch (now : Nat) (s : SessionData) : SessionData :=
  { s with
    pendingRegistration := none,
    registration := none,
    mode := SessionMode.login,
    login := some { stepIndex := 0 },
    lastActivity := now }

/-- The session patch a successful profile flush applies: the confirmed
server profile. -/
def drainProfSuccessPatch (now : Nat) (p : UserProfile) (s : SessionData) :
    SessionData :=
  { s with profile := some p, lastActivity := now }

/-- The `for`-with-`splice` loop of `tryFlushRegistrationQueue`: per entry,
success removes it and patches the owning session (token, profile, language,
pending payload cleared, registration mode becomes idle); a network-classified
failure keeps it; a 409 removes it and redirects the session to the login
wizard; any other failure removes it. -/
def tryFlushRegAux (now : Nat) (outcomes : Nat → ApiOutcome) :
    List RegTask → Store → List RegTask × Store
  | [], store => ([], store)
  | task :: rest, store =>
    match outcomes task.chatId with
    | .ok token user =>
      let (sess, store1) := Store.get now store task.chatId
      let store2 := match sess with
        | some s => store1.set task.chatId (drainRegSuccessPatch now token user s)
        | none => store1
      tryFlushRegAux now outcomes rest store2
    | .err e =>
      if isNetworkError e then
        let (rest2, store2) := tryFlushRegAux now outcomes rest store
        (task :: rest2, store2)
      else if e.info.isApiErrorInst ∧ e.info.status = 409 then
        let (sess, store1) := Store.get now store task.chatId
        let store2 := match sess with
          | some s => store1.set task.chatId (drainRegConflictPatch now s)
          | none => store1
        tryFlushRegAux now outcomes rest store2
      else tryFlushRegAux now outcomes rest store

/-- Models `tryFlushRegistrationQueue` (empty-queue and missing-base-URL guards
around the loop). -/
def tryFlushRegistrationQueue (baseUrlSet : Bool) (now : Nat)
    (outcomes : Nat → ApiOutcome) (queue : List RegTask) (store : Store) :
    List RegTask × Store :=
  if queue = [] then (queue, store)
  else if ¬ baseUrlSet then (queue, store)
  else tryFlushRegAux now outcomes queue store

/-- The loop of `tryFlushProfileQueue`: an entry whose session is absent or
tokenless is skipped (kept, no call); otherwise the patch is sent — success
removes the entry and stores the returned profile, any failure (network or
not) keeps the entry.  Also returns the chat ids for which a call was made. -/
def tryFlushProfAux (now : Nat) (outcomes : Nat → PatchOutcome) :
    List ProfilePatchTask → Store → List ProfilePatchTask × Store × List Nat
  | [], store => ([], store, [])
  | task :: rest, store =>
    let (sess, store1) := Store.get now store task.chatId
    match sess with
    | none =>
      let (rest2, store2, calls) := tryFlushProfAux now outcomes rest store1
      (task :: rest2, store2, calls)
    | some s =>
      match s.jwt with
      | none =>
        let (rest2, store2, calls) := tryFlushProfAux now outcomes rest store1
        (task :: rest2, store2, calls)
      | some _ =>
        match outcomes task.chatId with
        | .ok prof =>
          let store2 := match prof with
            | some p => store1.set task.chatId (drainProfSuccessPatch now p s)
            | none => store1
          let (rest2, store3, calls) := tryFlushProfAux now outcomes rest store2
          (rest2, store3, task.chatId :: calls)
        | .err _ =>
          let (rest2, store2, calls) := tryFlushProfAux now outcomes rest store1
          (task :: rest2, store2, task.chatId :: calls)

/-- Models `tryFlushProfileQueue` (guards around the loop). -/
def tryFlushProfileQueue (baseUrlSet : Bool) (now : Nat)
    (outcomes : Nat → PatchOutcome) (queue : List ProfilePatchTask)
    (store : Store) : List ProfilePatchTask × Store × List Nat :=
  if queue = [] then (queue, store, [])
  else if ¬ baseUrlSet then (queue, store, [])
  else tryFlushProfAux now outcomes queue store

/-! ### Claim-side (spec-worded) definitions for refinement comparisons -/

/-- A single error object looks network-related on its own (connection-level
code, abort, a `TypeError` from `fetch`, a network-looking message, or an
`ApiError` carrying one of the client's transient codes) — the building block
of the spec's transiency classification. -/
def networkRelatedNonApi (info : JsErrorData) : Bool :=
  isAbortErrorData info || info.isTypeErrorInst || hasNetworkCodeData info ||
  messageNetData info

/-- Following the claim's words: a failure is transient when the error itself,
or its cause **one level deep**, is classified network-related (an `ApiError`
is decided by its own code alone). -/
def specTransientOneLevelDeep : JsError → Bool
  | .mk info ocause =>
    if info.isApiErrorInst then transientApiCode info.code
    else
      networkRelatedNonApi info ||
      (match ocause with
       | some (.mk cinfo _) =>
         if cinfo.isApiErrorInst then transientApiCode cinfo.code
         else networkRelatedNonApi cinfo
       | none => false)

/-- The amended classification: the `cause` chain is followed recursively to
**any depth** (an `ApiError` node is decided by its own code and stops the
traversal). -/
def specTransientAnyDepth : JsError → Bool
  | .mk info ocause =>
    if info.isApiErrorInst then transientApiCode info.code
    else
      networkRelatedNonApi info ||
      (match ocause with
       | some c => specTransientAnyDepth c
       | none => false)

/-! ### Lemmas about the retry loop -/

theorem requestAux_attempts_le (d : Nat) (o : Nat → AttemptOutcome) :
    ∀ r a, (requestAux d o a r).attemptsUsed ≤ a + r + 1
  | 0, a => by
    unfold requestAux
    cases classifyOutcome (o a) <;> simp
  | r + 1, a => by
    have ih := requestAux_attempts_le d o r (a + 1)
    unfold requestAux
    cases classifyOutcome (o a) with
    | done _ => simp; try omega
    | retryable _ => simp; try omega

theorem requestAux_attempts_ge (d : Nat) (o : Nat → AttemptOutcome) :
    ∀ r a, a + 1 ≤ (requestAux d o a r).attemptsUsed
  | 0, a => by
    unfold requestAux
    cases classifyOutcome (o a) <;> simp
  | r + 1, a => by
    have ih := requestAux_attempts_ge d o r (a + 1)
    unfold requestAux
    cases classifyOutcome (o a) with
    | done _ => simp; try omega
    | retryable _ => simp; try omega

theorem requestAux_delays_getD (d : Nat) (o : Nat → AttemptOutcome) :
    ∀ r a k, k < (requestAux d o a r).delays.length →
      (requestAux d o a r).delays.getD k 0 = d * 2 ^ (a + k)
  | 0, a, k => by
    unfold requestAux
    cases classifyOutcome (o a) <;> simp
  | r + 1, a, k => by
    unfold requestAux
    cases hc : classifyOutcome (o a) with
    | done _ => simp
    | retryable _ =>
      intro h
      cases k with
      | zero => simp [calculateRetryDelay]
      | succ k =>
        simp only [List.length_cons] at h
        have h2 : k < (requestAux d o (a + 1) r).delays.length := by omega
        have ih := requestAux_delays_getD d o r (a + 1) k h2
        simpa [show a + 1 + k = a + (k + 1) by omega] using ih

theorem request_first_done (ra d : Nat) (o : Nat → AttemptOutcome)
    (r : ReqResult) (h : classifyOutcome (o 0) = .done r) :
    request ra d o = ⟨1, [], r⟩ := by
  cases ra with
  | zero =>
    unfold request requestAux
    rw [h]
  | succ n =>
    unfold request requestAux
    rw [h]

theorem request_first_retryable (ra d : Nat) (o : Nat → AttemptOutcome)
    (r : ReqResult) (h : classifyOutcome (o 0) = .retryable r) (hra : 1 ≤ ra) :
    2 ≤ (request ra d o).attemptsUsed := by
  cases ra with
  | zero => omega
  | succ n =>
    unfold request requestAux
    rw [h]
    simpa using requestAux_attempts_ge d o n 1

/-- Lemma: `shouldRetryError` is exactly the any-depth cause-chain classification. -/
theorem shouldRetryError_eq_anyDepth :
    ∀ e, shouldRetryError e = specTransientAnyDepth e
  | .mk info none => by
    simp only [shouldRetryError, specTransientAnyDepth, networkRelatedNonApi]
    cases hA : info.isApiErrorInst <;> simp
    cases h1 : isAbortErrorData info <;> cases h2 : info.isTypeErrorInst <;>
      cases h3 : hasNetworkCodeData info <;> cases h4 : messageNetData info <;>
      simp
  | .mk info (some c) => by
    have ih := shouldRetryError_eq_anyDepth c
    simp only [shouldRetryError, specTransientAnyDepth, networkRelatedNonApi]
    cases hA : info.isApiErrorInst <;> simp
    cases h1 : isAbortErrorData info <;> cases h2 : info.isTypeErrorInst <;>
      cases h3 : hasNetworkCodeData info <;> cases h4 : messageNetData info <;>
      simp [ih]

/-! ### Concrete error fixtures -/

/-- A plain `Error` (no special class, no code) with a message and an
optional cause. -/
def plainJsError (msg : String) (cause : Option JsError) : JsError :=
  .mk { isErrorInst := true, isTypeErrorInst := false, isApiErrorInst := false,
        errName := "Error", status := 0, code := none, errno := none,
        message := some msg } cause

/-- A connection-refused system error. -/
def connRefusedError : JsError :=
  .mk { isErrorInst := true, isTypeErrorInst := false, isApiErrorInst := false,
        errName := "Error", status := 0, code := some "ECONNREFUSED",
        errno := none, message := some "socket failure" } none

/-- An error whose network-related evidence sits two `cause` levels down. -/
def deepCauseError : JsError :=
  plainJsError "boom" (some (plainJsError "mid" (some connRefusedError)))

/-! ### C3 — retry budget -/

/-- C3: with `retryAttempts = 2` (the default) the request loop makes at most
3 fetch attempts, and a first attempt whose HTTP status is classified
terminal (`¬ shouldRetryStatus`, i.e. any non-429 4xx — the structured error
body is parsed into the surfaced `ApiError` but does not affect the retry
decision) ends the call after exactly 1 attempt, surfacing that error
immediately. -/
theorem c3_retry_budget (delayMs : Nat) (outcomes : Nat → AttemptOutcome) :
    (request 2 delayMs outcomes).attemptsUsed ≤ 3 ∧
    (∀ st bc bm stx, outcomes 0 = .httpError st bc bm stx →
      shouldRetryStatus st = false →
      (request 2 delayMs outcomes).attemptsUsed = 1 ∧
      (request 2 delayMs outcomes).result =
        .fail (mkApiError st bc (some (httpErrorMessage bm stx)) none)) := by
  constructor
  · simpa [request] using requestAux_attempts_le delayMs outcomes 2 0
  · intro st bc bm stx h0 hs
    have hc : classifyOutcome (outcomes 0) =
        .done (.fail (mkApiError st bc (some (httpErrorMessage bm stx)) none)) := by
      rw [h0]; simp [classifyOutcome, hs]
    rw [request_first_done 2 delayMs outcomes _ hc]
    exact ⟨rfl, rfl⟩

/-- Witness for C3 at a concrete terminal first attempt (HTTP 404). -/
theorem c3_retry_budget_witness :
    (request 2 500 (fun _ => .httpError 404 none none none)).attemptsUsed = 1 := by
  exact ((c3_retry_budget 500
    (fun _ => .httpError 404 none none none)).2 404 none none none rfl
    (by decide)).1

/-! ### C4 — exponential backoff -/

/-- C4: the delay awaited before the (0-indexed) n-th retried attempt is
`baseDelay * 2 ^ n` (`calculateRetryDelay`), and with the default base delay
of 500ms the successive retry delays are 500ms, 1000ms, 2000ms. -/
theorem c4_backoff (baseDelay : Nat) :
    (∀ retryAttempts outcomes k,
        k < (request retryAttempts baseDelay outcomes).delays.length →
        (request retryAttempts baseDelay outcomes).delays.getD k 0 =
          baseDelay * 2 ^ k) ∧
    calculateRetryDelay 500 0 = 500 ∧ calculateRetryDelay 500 1 = 1000 ∧
    calculateRetryDelay 500 2 = 2000 := by
  refine ⟨?_, by decide, by decide, by decide⟩
  intro ra outs k h
  simpa [request] using requestAux_delays_getD baseDelay outs ra 0 k h

/-- Witness for C4: a call that retries three times awaits exactly
500ms, 1000ms, 2000ms. -/
theorem c4_backoff_witness :
    (request 3 500 (fun _ => .httpError 503 none none none)).delays =
      [500, 1000, 2000] ∧
    (request 3 500 (fun _ => .httpError 503 none none none)).delays.getD 1 0 =
      500 * 2 ^ 1 := by
  refine ⟨by decide, ?_⟩
  exact (c4_backoff 500).1 3 (fun _ => .httpError 503 none none none) 1
    (by decide)

/-! ### C9 — retry eligibility classification -/

/-- C9 counterexample: `deepCauseError` is not an HTTP failure, carries no
network code/abort/TypeError/network-looking message itself, and its direct
cause is not network-related either — by the claim's "one level deep" rule it
is terminal and should be returned after 1 attempt.  The code classifies the
cause chain recursively, finds `ECONNREFUSED` two levels down, and retries:
with `retryAttempts = 2` it makes all 3 attempts. -/
theorem c9_counterexample :
    specTransientOneLevelDeep deepCauseError = false ∧
    deepCauseError.info.isApiErrorInst = false ∧
    shouldRetryError deepCauseError = true ∧
    (request 2 500 (fun _ => .fetchError deepCauseError)).attemptsUsed = 3 := by
  decide

/-- C9 amended: a failed attempt is retried only while attempts remain and
the failure is transient — HTTP 429/5xx, or a thrown non-`ApiError` whose
cause chain, followed recursively to **any depth** (not just one level),
reaches a network-related error (connection-level code, abort/timeout,
`TypeError`, or a network-looking message); any other non-`ok` status (any
other 4xx, with its parsed structured error body) or non-transient thrown
error is terminal and is surfaced after exactly the one attempt. -/
theorem c9_amended (d ra : Nat) (outs : Nat → AttemptOutcome) :
    (∀ e, shouldRetryError e = specTransientAnyDepth e) ∧
    (request ra d outs).attemptsUsed ≤ ra + 1 ∧
    (∀ st bc bm stx, outs 0 = .httpError st bc bm stx →
      shouldRetryStatus st = false → (request ra d outs).attemptsUsed = 1) ∧
    (∀ e, outs 0 = .fetchError e → shouldRetryError e = false →
      (request ra d outs).attemptsUsed = 1) ∧
    (∀ st bc bm stx, outs 0 = .httpError st bc bm stx →
      shouldRetryStatus st = true → 1 ≤ ra →
      2 ≤ (request ra d outs).attemptsUsed) ∧
    (∀ e, outs 0 = .fetchError e → e.info.isApiErrorInst = false →
      shouldRetryError e = true → 1 ≤ ra →
      2 ≤ (request ra d outs).attemptsUsed) := by
  refine ⟨shouldRetryError_eq_anyDepth, ?_, ?_, ?_, ?_, ?_⟩
  · simpa [request] using requestAux_attempts_le d outs ra 0
  · intro st bc bm stx h0 hs
    have hc : classifyOutcome (outs 0) =
        .done (.fail (mkApiError st bc (some (httpErrorMessage bm stx)) none)) := by
      rw [h0]; simp [classifyOutcome, hs]
    rw [request_first_done ra d outs _ hc]
  · intro e h0 hse
    cases hA : e.info.isApiErrorInst with
    | true =>
      have hc : classifyOutcome (outs 0) = .done (.fail e) := by
        rw [h0]; simp [classifyOutcome, hA]
      rw [request_first_done ra d outs _ hc]
    | false =>
      have hc : classifyOutcome (outs 0) =
          .done (.fail (normalizeFetchError e "network_error")) := by
        rw [h0]; simp [classifyOutcome, hA, hse]
      rw [request_first_done ra d outs _ hc]
  · intro st bc bm stx h0 hs hra
    have hc : classifyOutcome (outs 0) =
        .retryable (.fail (mkApiError st bc (some (httpErrorMessage bm stx)) none)) := by
      rw [h0]; simp [classifyOutcome, hs]
    exact request_first_retryable ra d outs _ hc hra
  · intro e h0 hA hse hra
    have hc : classifyOutcome (outs 0) =
        .retryable (.fail (normalizeFetchError e "network_error")) := by
      rw [h0]; simp [classifyOutcome, hA, hse]
    exact request_first_retryable ra d outs _ hc hra

/-- Witness for C9 at concrete inputs: a 404 first attempt ends after one
attempt; a 503 first attempt with attempts remaining is retried. -/
theorem c9_amended_witness :
    (request 2 500 (fun _ => .httpError 410 none none none)).attemptsUsed = 1 ∧
    2 ≤ (request 2 500 (fun _ => .httpError 503 none none none)).attemptsUsed := by
  constructor
  · exact (c9_amended 500 2 (fun _ => .httpError 410 none none none)).2.2.1
      410 none none none rfl (by decide)
  · exact (c9_amended 500 2 (fun _ => .httpError 503 none none none)).2.2.2.2.1
      503 none none none rfl (by decide) (by decide)

/-! ### C5 — profile-patch coalescing -/

/-- Two patches overlap: some field is present in both. -/
def ProfilePatch.overlaps (a b : ProfilePatch) : Bool :=
  (a.fullName.isSome && b.fullName.isSome) ||
  (a.phone.isSome && b.phone.isSome) ||
  (a.filingStatus.isSome && b.filingStatus.isSome) ||
  (a.incomeType.isSome && b.incomeType.isSome) ||
  (a.country.isSome && b.country.isSome) ||
  (a.stateRegion.isSome && b.stateRegion.isSome)

theorem overlaps_hasFields {a b : ProfilePatch} (h : a.overlaps b = true) :
    a.hasFields = true ∧ b.hasFields = true := by
  simp only [ProfilePatch.overlaps, Bool.or_eq_true, Bool.and_eq_true] at h
  rcases h with ((((⟨ha, hb⟩ | ⟨ha, hb⟩) | ⟨ha, hb⟩) | ⟨ha, hb⟩) | ⟨ha, hb⟩) |
    ⟨ha, hb⟩ <;>
    simp [ProfilePatch.hasFields, ha, hb]

theorem coalesceInto_not_mem (q : List ProfilePatchTask) (c : Nat)
    (p : ProfilePatch) (hq : ∀ t ∈ q, t.chatId ≠ c) :
    coalesceInto q c p = q ++ [⟨c, p⟩] := by
  induction q with
  | nil => rfl
  | cons t rest ih =>
    have ht : t.chatId ≠ c := hq t (by simp)
    simp only [coalesceInto, if_neg ht, List.cons_append, List.cons.injEq,
      true_and]
    exact ih (fun x hx => hq x (by simp [hx]))

theorem coalesceInto_append_hit (q : List ProfilePatchTask) (c : Nat)
    (p1 p2 : ProfilePatch) (hq : ∀ t ∈ q, t.chatId ≠ c) :
    coalesceInto (q ++ [⟨c, p1⟩]) c p2 = q ++ [⟨c, p1.merge p2⟩] := by
  induction q with
  | nil => simp [coalesceInto]
  | cons t rest ih =>
    have ht : t.chatId ≠ c := hq t (by simp)
    simp only [List.cons_append, coalesceInto, if_neg ht, List.cons.injEq,
      true_and]
    exact ih (fun x hx => hq x (by simp [hx]))

theorem coalesceInto_map_chatId (q : List ProfilePatchTask) (c : Nat)
    (p : ProfilePatch) :
    (coalesceInto q c p).map ProfilePatchTask.chatId =
      (if c ∈ q.map ProfilePatchTask.chatId
       then q.map ProfilePatchTask.chatId
       else q.map ProfilePatchTask.chatId ++ [c]) := by
  induction q with
  | nil => simp [coalesceInto]
  | cons t rest ih =>
    by_cases ht : t.chatId = c
    · simp [coalesceInto, ht]
    · have hne : c ≠ t.chatId := fun h => ht h.symm
      simp only [coalesceInto, if_neg ht, List.map_cons, ih,
        List.mem_cons]
      by_cases hc : c ∈ rest.map ProfilePatchTask.chatId <;>
        simp [hc, hne]

theorem enqueueProfilePatch_nodup (q : List ProfilePatchTask) (c : Nat)
    (p : ProfilePatch) (h : (q.map ProfilePatchTask.chatId).Nodup) :
    ((enqueueProfilePatch q c p).map ProfilePatchTask.chatId).Nodup := by
  unfold enqueueProfilePatch
  by_cases hf : p.hasFields = true
  · simp only [hf, not_true, ite_false, if_neg, Bool.not_eq_true,
      not_false_iff]
    rw [coalesceInto_map_chatId]
    by_cases hc : c ∈ q.map ProfilePatchTask.chatId
    · simpa [hc] using h
    · rw [if_neg hc, List.nodup_append]
      refine ⟨h, List.nodup_singleton c, ?_⟩
      intro a ha hmem
      rw [List.mem_singleton] at hmem
      subst hmem
      exact hc ha
  · simp [hf, h]

/-- C5: the profile-patch queue keeps at most one pending entry per
conversation (`enqueueProfilePatch` preserves distinctness of chat ids), and
enqueuing two overlapping patches for one chat before any drain leaves
exactly one entry for that chat whose payload is the field-wise merge, later
value winning per field. -/
theorem c5_coalescing (q : List ProfilePatchTask) (c : Nat)
    (p1 p2 : ProfilePatch) (hq : ∀ t ∈ q, t.chatId ≠ c)
    (hoverlap : p1.overlaps p2 = true) :
    (enqueueProfilePatch (enqueueProfilePatch q c p1) c p2).filter
        (fun t => t.chatId == c) = [⟨c, p1.merge p2⟩] ∧
    (∀ q2 c2 pp, ((q2.map ProfilePatchTask.chatId).Nodup →
      ((enqueueProfilePatch q2 c2 pp).map ProfilePatchTask.chatId).Nodup)) := by
  refine ⟨?_, fun q2 c2 pp h => enqueueProfilePatch_nodup q2 c2 pp h⟩
  obtain ⟨h1, h2⟩ := overlaps_hasFields hoverlap
  unfold enqueueProfilePatch
  simp only [h1, h2, not_true, if_neg, ite_false]
  rw [coalesceInto_not_mem q c p1 hq, coalesceInto_append_hit q c p1 p2 hq]
  rw [List.filter_append]
  have hnil : q.filter (fun t => t.chatId == c) = [] := by
    rw [List.filter_eq_nil_iff]
    intro t ht
    simpa using hq t ht
  simp [hnil]

/-- Witness for C5: two concrete overlapping patches for chat 7. -/
theorem c5_coalescing_witness :
    (enqueueProfilePatch (enqueueProfilePatch [] 7
        { country := some "DE", phone := some "+4940111222" }) 7
        { country := some "FR" }).filter (fun t => t.chatId == 7) =
      [⟨7, ProfilePatch.merge { country := some "DE", phone := some "+4940111222" }
        { country := some "FR" }⟩] :=
  (c5_coalescing [] 7 { country := some "DE", phone := some "+4940111222" }
    { country := some "FR" } (by simp) (by decide)).1

/-! ### Concrete session/store fixtures -/

def sampleRegData : RegData :=
  { phone := some "+14085550123", fullName := some "Avery",
    email := some "a@b.c", dob := some "1990-02-17",
    country := some "Germany", stateRegion := some "Berlin",
    filingStatus := some "single", incomeType := some "w2" }

/-- A session whose registration wizard sits at the finalize position
(cursor = step count = 8). -/
def finalizeReadySession : SessionData :=
  { chatId := 5, telegramId := 9, language := "en", mode := .registration,
    registration := some { stepIndex := 8, data := sampleRegData,
                           phoneVerified := true },
    lastActivity := 100 }

def sampleProfile : UserProfile :=
  { id := "u1", fullName := "Avery", email := "a@b.c", phone := none,
    dob := none, filingStatus := none, incomeType := none, country := none,
    stateRegion := none, language := "en" }

def sampleStore : Store := fun c => if c = 5 then some finalizeReadySession else none

def tokenSession : SessionData := { finalizeReadySession with jwt := some "tok" }

def tokenStore : Store := fun c => if c = 5 then some tokenSession else none

def sampleRegTask : RegTask := ⟨5, sampleRegData⟩

def sampleProfTask : ProfilePatchTask := ⟨5, { country := some "Germany" }⟩

/-- The `ApiError(503, network_error)` that `normalizeFetchError` produces for a
connection failure. -/
def err503 : JsError :=
  mkApiError 503 (some "network_error") (some "Network request failed") none

/-- A 409 conflict `ApiError` with an ordinary body message. -/
def err409 : JsError := mkApiError 409 (some "DUPLICATE") (some "Conflict") none

/-- A 409 conflict `ApiError` whose backend-supplied body message happens to
look network-related. -/
def err409Net : JsError := mkApiError 409 none (some "connection timeout") none

/-- A terminal 400 `ApiError`. -/
def err400 : JsError := mkApiError 400 (some "bad_request") (some "Bad Request") none

/-! ### C8 — TTL eviction and fresh re-creation -/

/-- C8: a session whose last activity lies more than the 12h TTL in the past
is reported absent by the next `get` and deleted from the store, and a
subsequent `create` returns a fresh idle session carrying no wizard state,
token or profile. -/
theorem c8_ttl_eviction (store : Store) (c tg : Nat) (lang : String)
    (s : SessionData) (now now2 : Nat) (hstore : store c = some s)
    (h0 : s.lastActivity ≠ 0) (hexp : SESSION_TTL_MS < now - s.lastActivity) :
    (Store.get now store c).1 = none ∧
    ((Store.get now store c).2) c = none ∧
    (Store.create now2 ((Store.get now store c).2) c tg lang).1.mode = .idle ∧
    (Store.create now2 ((Store.get now store c).2) c tg lang).1.registration = none ∧
    (Store.create now2 ((Store.get now store c).2) c tg lang).1.login = none ∧
    (Store.create now2 ((Store.get now store c).2) c tg lang).1.jwt = none ∧
    (Store.create now2 ((Store.get now store c).2) c tg lang).1.profile = none ∧
    (Store.create now2 ((Store.get now store c).2) c tg lang).1.pendingRegistration = none ∧
    ((Store.create now2 ((Store.get now store c).2) c tg lang).2) c =
      some (Store.create now2 ((Store.get now store c).2) c tg lang).1 := by
  unfold Store.get Store.create Store.set
  rw [hstore]
  simp [h0, hexp]

/-- Witness for C8: the chat-5 session (last activity 100) queried at
`now = TTL + 101`. -/
theorem c8_ttl_eviction_witness :
    (Store.get 43200101 sampleStore 5).1 = none ∧
    ((Store.get 43200101 sampleStore 5).2) 5 = none ∧
    (Store.create 7 ((Store.get 43200101 sampleStore 5).2) 5 9 "en").1.registration = none := by
  have h := c8_ttl_eviction sampleStore 5 9 "en" finalizeReadySession
    43200101 7 (by decide) (by decide) (by decide)
  exact ⟨h.1, h.2.1, h.2.2.2.1⟩

/-! ### Store frame lemmas -/

theorem Store.get_fst_def (now : Nat) (st : Store) (c : Nat) :
    (Store.get now st c).1 =
      (match st c with
       | none => none
       | some s =>
         if s.lastActivity ≠ 0 ∧ SESSION_TTL_MS < now - s.lastActivity
         then none else some s) := by
  unfold Store.get
  cases st c with
  | none => rfl
  | some s =>
    by_cases hcond : s.lastActivity ≠ 0 ∧ SESSION_TTL_MS < now - s.lastActivity <;>
      simp [hcond]

theorem Store.get_fst_congr (now : Nat) (st1 st2 : Store) (c : Nat)
    (h : st1 c = st2 c) :
    (Store.get now st1 c).1 = (Store.get now st2 c).1 := by
  rw [Store.get_fst_def, Store.get_fst_def, h]

theorem Store.get_of_fst_some (now : Nat) (st : Store) (c : Nat)
    (s : SessionData) (h : (Store.get now st c).1 = some s) :
    Store.get now st c = (some s, st) := by
  unfold Store.get at h ⊢
  cases hs : st c with
  | none => simp [hs] at h
  | some x =>
    simp only [hs] at h ⊢
    by_cases hcond : x.lastActivity ≠ 0 ∧ SESSION_TTL_MS < now - x.lastActivity
    · simp [hcond] at h
    · simp only [if_neg hcond] at h ⊢
      have hx : x = s := by simpa using h
      rw [hx]

theorem Store.get_snd_apply_ne (now : Nat) (st : Store) (c c2 : Nat)
    (h : c2 ≠ c) : ((Store.get now st c).2) c2 = st c2 := by
  unfold Store.get
  cases st c with
  | none => rfl
  | some s =>
    by_cases hcond : s.lastActivity ≠ 0 ∧ SESSION_TTL_MS < now - s.lastActivity <;>
      simp [hcond, h]

theorem Store.set_apply_ne (st : Store) (c c2 : Nat) (v : SessionData)
    (h : c2 ≠ c) : (st.set c v) c2 = st c2 := by
  unfold Store.set
  simp [h]

theorem Store.set_apply_self (st : Store) (c : Nat) (v : SessionData) :
    (st.set c v) c = some v := by
  unfold Store.set
  simp

/-! ### Drain characterization lemmas -/

/-- The fate of a registration entry in one drain pass depends only on its
own outcome: it stays queued iff the call failed with a network-classified
error. -/
def regKeepB (outs : Nat → ApiOutcome) (t : RegTask) : Bool :=
  match outs t.chatId with
  | .ok _ _ => false
  | .err e => isNetworkError e

theorem tryFlushRegAux_queue (now : Nat) (outs : Nat → ApiOutcome) :
    ∀ q store, (tryFlushRegAux now outs q store).1 = q.filter (regKeepB outs) := by
  intro q
  induction q with
  | nil => intro store; simp [tryFlushRegAux]
  | cons t rest ih =>
    intro store
    unfold tryFlushRegAux
    cases ho : outs t.chatId with
    | ok token user =>
      rcases hG : Store.get now store t.chatId with ⟨sess, store1⟩
      simp [ho, hG, ih, List.filter_cons, regKeepB]
    | err e =>
      by_cases hn : isNetworkError e = true
      · simp [ho, hn, ih, List.filter_cons, regKeepB]
      · by_cases h409 : e.info.isApiErrorInst ∧ e.info.status = 409
        · rcases hG : Store.get now store t.chatId with ⟨sess, store1⟩
          simp [ho, hn, h409, hG, ih, List.filter_cons, regKeepB]
        · simp [ho, hn, h409, ih, List.filter_cons, regKeepB]

/-- A profile entry is skipped in a pass (kept with no call) when its owning
session is absent — including just-TTL-evicted — or holds no token. -/
def profSkipB (now : Nat) (store : Store) (t : ProfilePatchTask) : Bool :=
  match (Store.get now store t.chatId).1 with
  | none => true
  | some s => s.jwt.isNone

/-- A profile entry stays in the queue after a pass: skipped, or its call
failed (network-classified or not). -/
def profKeepB (now : Nat) (store : Store) (outs : Nat → PatchOutcome)
    (t : ProfilePatchTask) : Bool :=
  match (Store.get now store t.chatId).1 with
  | none => true
  | some s =>
    if s.jwt.isNone then true
    else match outs t.chatId with
      | .ok _ => false
      | .err _ => true

/-- A call is made for a profile entry iff its session is present with a
token. -/
def profCallB (now : Nat) (store : Store) (t : ProfilePatchTask) : Bool :=
  match (Store.get now store t.chatId).1 with
  | none => false
  | some s => s.jwt.isSome

theorem profKeepB_congr (now : Nat) (st1 st2 : Store)
    (outs : Nat → PatchOutcome) (t : ProfilePatchTask)
    (h : st1 t.chatId = st2 t.chatId) :
    profKeepB now st1 outs t = profKeepB now st2 outs t := by
  unfold profKeepB
  rw [Store.get_fst_congr now st1 st2 t.chatId h]

theorem profCallB_congr (now : Nat) (st1 st2 : Store) (t : ProfilePatchTask)
    (h : st1 t.chatId = st2 t.chatId) :
    profCallB now st1 t = profCallB now st2 t := by
  unfold profCallB
  rw [Store.get_fst_congr now st1 st2 t.chatId h]

/-- One profile drain pass, characterized entry-wise (for queues with
pairwise-distinct chat ids, the invariant `enqueueProfilePatch` maintains):
the resulting queue keeps exactly the skipped and failed entries, and calls
are made exactly for the non-skipped ones, in order — so no entry's failure
prevents later entries from being attempted. -/
theorem tryFlushProfAux_spec (now : Nat) (outs : Nat → PatchOutcome) :
    ∀ q store, ((q.map ProfilePatchTask.chatId).Nodup) →
      (tryFlushProfAux now outs q store).1 =
        q.filter (profKeepB now store outs) ∧
      (tryFlushProfAux now outs q store).2.2 =
        (q.filter (profCallB now store)).map ProfilePatchTask.chatId := by
  intro q
  induction q with
  | nil => intro store _; simp [tryFlushProfAux]
  | cons t rest ih =>
    intro store hnd
    rw [List.map_cons, List.nodup_cons] at hnd
    obtain ⟨hnotin, hndrest⟩ := hnd
    have hne : ∀ r ∈ rest, r.chatId ≠ t.chatId := by
      intro r hr heq
      exact hnotin (heq ▸ List.mem_map_of_mem ProfilePatchTask.chatId hr)
    unfold tryFlushProfAux
    rcases hG : Store.get now store t.chatId with ⟨sess, store1⟩
    have hfst : (Store.get now store t.chatId).1 = sess := by rw [hG]
    cases sess with
    | none =>
      have hag : ∀ r ∈ rest, store1 r.chatId = store r.chatId := by
        intro r hr
        have := Store.get_snd_apply_ne now store t.chatId r.chatId (hne r hr)
        rw [hG] at this
        exact this
      obtain ⟨ihq, ihc⟩ := ih store1 hndrest
      have hq2 : rest.filter (profKeepB now store1 outs) =
          rest.filter (profKeepB now store outs) :=
        List.filter_congr (fun r hr =>
          profKeepB_congr now store1 store outs r (hag r hr))
      have hc2 : rest.filter (profCallB now store1) =
          rest.filter (profCallB now store) :=
        List.filter_congr (fun r hr =>
          profCallB_congr now store1 store r (hag r hr))
      constructor
      · simp only [hG, ihq, hq2, List.filter_cons]
        simp [profKeepB, hfst]
      · simp only [hG, ihc, hc2, List.filter_cons]
        simp [profCallB, hfst]
    | some s =>
      have hstore1 : store1 = store := by
        have := Store.get_of_fst_some now store t.chatId s hfst
        rw [hG] at this
        exact congrArg Prod.snd this
      subst hstore1
      cases hjwt : s.jwt with
      | none =>
        obtain ⟨ihq, ihc⟩ := ih store1 hndrest
        constructor
        · simp only [hG, hjwt, ihq, List.filter_cons]
          simp [profKeepB, hfst, hjwt]
        · simp only [hG, hjwt, ihc, List.filter_cons]
          simp [profCallB, hfst, hjwt]
      | some tok =>
        cases ho : outs t.chatId with
        | ok prof =>
          cases prof with
          | none =>
            obtain ⟨ihq, ihc⟩ := ih store1 hndrest
            constructor
            · simp only [hG, hjwt, ho, ihq, List.filter_cons]
              simp [profKeepB, hfst, hjwt, ho]
            · simp only [hG, hjwt, ho, ihc, List.filter_cons]
              simp [profCallB, hfst, hjwt]
          | some p =>
            have hag : ∀ r ∈ rest,
                (store1.set t.chatId (drainProfSuccessPatch now p s)) r.chatId =
                store1 r.chatId := by
              intro r hr
              exact Store.set_apply_ne store1 t.chatId r.chatId _ (hne r hr)
            obtain ⟨ihq, ihc⟩ := ih
              (store1.set t.chatId (drainProfSuccessPatch now p s)) hndrest
            have hq2 : rest.filter (profKeepB now
                (store1.set t.chatId (drainProfSuccessPatch now p s))
                outs) = rest.filter (profKeepB now store1 outs) :=
              List.filter_congr (fun r hr =>
                profKeepB_congr now _ store1 outs r (hag r hr))
            have hc2 : rest.filter (profCallB now
                (store1.set t.chatId (drainProfSuccessPatch now p s))) =
                rest.filter (profCallB now store1) :=
              List.filter_congr (fun r hr =>
                profCallB_congr now _ store1 r (hag r hr))
            constructor
            · simp only [hG, hjwt, ho, ihq, hq2, List.filter_cons]
              simp [profKeepB, hfst, hjwt, ho]
            · simp only [hG, hjwt, ho, ihc, hc2, List.filter_cons]
              simp [profCallB, hfst, hjwt]
        | err e =>
          obtain ⟨ihq, ihc⟩ := ih store1 hndrest
          constructor
          · simp only [hG, hjwt, ho, ihq, List.filter_cons]
            simp [profKeepB, hfst, hjwt, ho]
          · simp only [hG, hjwt, ho, ihc, List.filter_cons]
            simp [profCallB, hfst, hjwt]

/-! ### Single-entry drain lemmas (shared) -/

theorem tryFlushRegQueue_cons (now : Nat) (outsR : Nat → ApiOutcome)
    (t : RegTask) (rest : List RegTask) (store : Store) :
    tryFlushRegistrationQueue true now outsR (t :: rest) store =
      tryFlushRegAux now outsR (t :: rest) store := by
  unfold tryFlushRegistrationQueue
  simp

theorem tryFlushProfQueue_cons (now : Nat) (outsP : Nat → PatchOutcome)
    (t : ProfilePatchTask) (rest : List ProfilePatchTask) (store : Store) :
    tryFlushProfileQueue true now outsP (t :: rest) store =
      tryFlushProfAux now outsP (t :: rest) store := by
  unfold tryFlushProfileQueue
  simp

theorem tryFlushReg_single_success (now : Nat) (outsR : Nat → ApiOutcome)
    (t : RegTask) (store : Store) (sess : SessionData) (token : String)
    (user : UserProfile) (hget : (Store.get now store t.chatId).1 = some sess)
    (ho : outsR t.chatId = .ok token user) :
    tryFlushRegistrationQueue true now outsR [t] store =
      ([], store.set t.chatId (drainRegSuccessPatch now token user sess)) := by
  have hG := Store.get_of_fst_some now store t.chatId sess hget
  rw [tryFlushRegQueue_cons]
  unfold tryFlushRegAux
  simp only [ho, hG]
  rfl

theorem tryFlushReg_single_conflict (now : Nat) (outsR : Nat → ApiOutcome)
    (t : RegTask) (store : Store) (sess : SessionData) (e : JsError)
    (hnet : isNetworkError e = false) (hapi : e.info.isApiErrorInst = true)
    (h409 : e.info.status = 409)
    (hget : (Store.get now store t.chatId).1 = some sess)
    (ho : outsR t.chatId = .err e) :
    tryFlushRegistrationQueue true now outsR [t] store =
      ([], store.set t.chatId (drainRegConflictPatch now sess)) := by
  have hG := Store.get_of_fst_some now store t.chatId sess hget
  rw [tryFlushRegQueue_cons]
  unfold tryFlushRegAux
  simp only [ho, hnet, hapi, h409, hG, Bool.false_eq_true, if_false,
    and_self, if_true]
  rfl

theorem tryFlushReg_single_network (now : Nat) (outsR : Nat → ApiOutcome)
    (t : RegTask) (store : Store) (e : JsError)
    (hnet : isNetworkError e = true) (ho : outsR t.chatId = .err e) :
    tryFlushRegistrationQueue true now outsR [t] store = ([t], store) := by
  rw [tryFlushRegQueue_cons]
  unfold tryFlushRegAux
  simp only [ho, hnet, if_true]
  rfl

theorem tryFlushProf_single_success (now : Nat) (outsP : Nat → PatchOutcome)
    (t : ProfilePatchTask) (store : Store) (sess : SessionData) (tok : String)
    (p : UserProfile) (hget : (Store.get now store t.chatId).1 = some sess)
    (hjwt : sess.jwt = some tok) (ho : outsP t.chatId = .ok (some p)) :
    tryFlushProfileQueue true now outsP [t] store =
      ([], store.set t.chatId (drainProfSuccessPatch now p sess), [t.chatId]) := by
  have hG := Store.get_of_fst_some now store t.chatId sess hget
  rw [tryFlushProfQueue_cons]
  unfold tryFlushProfAux
  simp only [hG, hjwt, ho]
  rfl

/-! ### C6 — drain-pass semantics -/

/-- C6 counterexample: a pending profile patch whose `PATCH /users/me` call
fails with a terminal (non-network-classified) 400 is **kept** in the queue,
not removed as the claim states; the session is present and authenticated,
so the entry was really attempted rather than skipped. -/
theorem c6_counterexample :
    isNetworkError err400 = false ∧
    profSkipB 200 tokenStore sampleProfTask = false ∧
    (tryFlushProfileQueue true 200 (fun _ => .err err400) [sampleProfTask]
      tokenStore).1 = [sampleProfTask] := by
  decide

/-- C6 amended: in one drain pass — (a) the registration queue afterwards
holds exactly the entries whose call failed with a network-classified error:
success and terminal failures remove an entry, each entry's fate independent
of the others; (b) the profile queue afterwards holds exactly the skipped
(absent/tokenless session) and **failed** entries — transient *and terminal*
failures alike keep a profile entry, contrary to the original claim — and
calls are attempted exactly for the entries with a present authenticated
session, so one entry's failure does not block later entries; (c) a
successful registration drain patches the owning session (token, profile,
language, pending payload cleared, registration mode → idle); (d) a
successful profile drain stores the server-returned profile on the owning
session. -/
theorem c6_amended (now : Nat) (outsR : Nat → ApiOutcome)
    (outsP : Nat → PatchOutcome) :
    (∀ q store, (tryFlushRegistrationQueue true now outsR q store).1 =
        q.filter (regKeepB outsR)) ∧
    (∀ q store, (q.map ProfilePatchTask.chatId).Nodup →
        (tryFlushProfileQueue true now outsP q store).1 =
          q.filter (profKeepB now store outsP) ∧
        (tryFlushProfileQueue true now outsP q store).2.2 =
          (q.filter (profCallB now store)).map ProfilePatchTask.chatId) ∧
    (∀ t store sess token user,
        (Store.get now store t.chatId).1 = some sess →
        outsR t.chatId = .ok token user →
        ((tryFlushRegistrationQueue true now outsR [t] store).2) t.chatId =
          some (drainRegSuccessPatch now token user sess)) ∧
    (∀ t store sess tok p,
        (Store.get now store t.chatId).1 = some sess → sess.jwt = some tok →
        outsP t.chatId = .ok (some p) →
        ((tryFlushProfileQueue true now outsP [t] store).2.1) t.chatId =
          some (drainProfSuccessPatch now p sess)) := by
  refine ⟨?_, ?_, ?_, ?_⟩
  · intro q store
    unfold tryFlushRegistrationQueue
    by_cases hq : q = []
    · simp [hq]
    · simp [hq, tryFlushRegAux_queue now outsR q store]
  · intro q store hnd
    unfold tryFlushProfileQueue
    by_cases hq : q = []
    · simp [hq]
    · simpa [hq] using tryFlushProfAux_spec now outsP q store hnd
  · intro t store sess token user hget ho
    rw [tryFlushReg_single_success now outsR t store sess token user hget ho]
    exact Store.set_apply_self store t.chatId _
  · intro t store sess tok p hget hjwt ho
    rw [tryFlushProf_single_success now outsP t store sess tok p hget hjwt ho]
    exact Store.set_apply_self store t.chatId _

/-- Witness for C6 at concrete inputs: a successful registration drain for
chat 5 patches the stored session. -/
theorem c6_amended_witness :
    ((tryFlushRegistrationQueue true 200 (fun _ => .ok "tok" sampleProfile)
        [sampleRegTask] sampleStore).2) 5 =
      some (drainRegSuccessPatch 200 "tok" sampleProfile finalizeReadySession) := by
  exact (c6_amended 200 (fun _ => .ok "tok" sampleProfile)
    (fun _ => .ok none)).2.2.1 sampleRegTask sampleStore finalizeReadySession
    "tok" sampleProfile (by decide) rfl

/-! ### C10 — skipped profile entries persist -/

theorem profSkipB_keep (now : Nat) (store : Store) (outs : Nat → PatchOutcome)
    (t : ProfilePatchTask) (h : profSkipB now store t = true) :
    profKeepB now store outs t = true := by
  unfold profSkipB at h
  unfold profKeepB
  cases hg : (Store.get now store t.chatId).1 with
  | none => rfl
  | some s =>
    simp only [hg] at h
    simp [h]

theorem profSkipB_no_call (now : Nat) (store : Store) (t : ProfilePatchTask)
    (h : profSkipB now store t = true) :
    profCallB now store t = false := by
  unfold profSkipB at h
  unfold profCallB
  cases hg : (Store.get now store t.chatId).1 with
  | none => rfl
  | some s =>
    simp only [hg] at h
    simp only [Option.isNone_iff_eq_none] at h
    simp [h]

/-- C10: a pending profile patch whose owning session is absent (e.g.
TTL-evicted) or holds no auth token is skipped by the drain pass: no API
call is made for it and the entry stays in the queue unchanged, so it
persists across passes until its session reappears with a token. -/
theorem c10_skipped_entries (now : Nat) (outs : Nat → PatchOutcome)
    (q : List ProfilePatchTask) (store : Store) (t : ProfilePatchTask)
    (hnd : (q.map ProfilePatchTask.chatId).Nodup) (hmem : t ∈ q)
    (hskip : profSkipB now store t = true) :
    t ∈ (tryFlushProfileQueue true now outs q store).1 ∧
    t.chatId ∉ (tryFlushProfileQueue true now outs q store).2.2 := by
  have hqne : q ≠ [] := by
    intro h
    rw [h] at hmem
    exact absurd hmem (by simp)
  have htop : tryFlushProfileQueue true now outs q store =
      tryFlushProfAux now outs q store := by
    unfold tryFlushProfileQueue
    rw [if_neg hqne]
    simp
  rw [htop]
  obtain ⟨hq, hc⟩ := tryFlushProfAux_spec now outs q store hnd
  rw [hq, hc]
  constructor
  · exact List.mem_filter.mpr ⟨hmem, profSkipB_keep now store outs t hskip⟩
  · intro hmem2
    obtain ⟨r, hr, hrc⟩ := List.mem_map.mp hmem2
    have hrq : r ∈ q := List.mem_of_mem_filter hr
    have hrt : r = t := List.inj_on_of_nodup_map hnd hrq hmem hrc
    have hcall : profCallB now store r = true := List.of_mem_filter hr
    rw [hrt, profSkipB_no_call now store t hskip] at hcall
    exact absurd hcall (by simp)

/-- Witness for C10: chat 5's session exists but holds no token; its queued
patch is kept and no call is made for it. -/
theorem c10_skipped_entries_witness :
    sampleProfTask ∈ (tryFlushProfileQueue true 200
      (fun _ => .ok (some sampleProfile)) [sampleProfTask] sampleStore).1 ∧
    (5 : Nat) ∉ (tryFlushProfileQueue true 200
      (fun _ => .ok (some sampleProfile)) [sampleProfTask] sampleStore).2.2 := by
  exact c10_skipped_entries 200 (fun _ => .ok (some sampleProfile))
    [sampleProfTask] sampleStore sampleProfTask (by decide) (by decide)
    (by decide)

/-! ### Foreground finalize lemmas (shared by C1 and C7) -/

theorem finalizeRegistration_err (s : SessionData) (reg : RegState)
    (e : JsError) (q : List RegTask) (hs : s.registration = some reg)
    (hphone : reg.data.phone.getD "" ≠ "") (hver : reg.phoneVerified = true) :
    finalizeRegistration s (.err e) q =
      finalizeRegistrationCall s reg (.err e) q := by
  unfold finalizeRegistration
  simp only [hs]
  rw [if_neg (by simp [hphone, hver])]

theorem finalizeRegistrationCall_conflict (s : SessionData) (reg : RegState)
    (e : JsError) (q : List RegTask) (hapi : e.info.isApiErrorInst = true)
    (h409 : e.info.status = 409) :
    (finalizeRegistrationCall s reg (.err e) q).1.registration = none ∧
    (finalizeRegistrationCall s reg (.err e) q).1.mode = SessionMode.login ∧
    (finalizeRegistrationCall s reg (.err e) q).1.login =
      some { stepIndex := 0 } ∧
    (finalizeRegistrationCall s reg (.err e) q).2.1 = q ∧
    (finalizeRegistrationCall s reg (.err e) q).2.2 =
      ["registration.duplicate"] := by
  simp only [finalizeRegistrationCall]
  rw [if_pos ⟨hapi, h409⟩]
  exact ⟨rfl, rfl, rfl, rfl, rfl⟩

theorem finalizeRegistrationCall_network (s : SessionData) (reg : RegState)
    (e : JsError) (q : List RegTask)
    (hn409 : ¬ (e.info.isApiErrorInst = true ∧ e.info.status = 409))
    (hnet : isNetworkError e = true) :
    (finalizeRegistrationCall s reg (.err e) q).1.registration =
      some { reg with stepIndex := registrationSteps.length - 1 } ∧
    (finalizeRegistrationCall s reg (.err e) q).1.mode = s.mode ∧
    (finalizeRegistrationCall s reg (.err e) q).2.1 = q ∧
    (finalizeRegistrationCall s reg (.err e) q).2.2 = ["error.network"] := by
  simp only [finalizeRegistrationCall]
  rw [if_neg hn409, if_pos hnet]
  exact ⟨rfl, rfl, rfl, rfl⟩

/-! ### C1 — transient finalize failure and background drain -/

/-- C1 counterexample: `POST /auth/register` fails with the transient
`ApiError(503, network_error)`; the wizard state is kept, but its cursor is
reset to 7 (= step count − 1, the last step), **not** left at the finalize
position 8, and nothing is handed to the registration sync queue (which stays
empty). -/
theorem c1_counterexample :
    isNetworkError err503 = true ∧
    (finalizeReadySession.registration.map RegState.stepIndex) =
      some registrationSteps.length ∧
    ((finalizeRegistration finalizeReadySession (.err err503)
        []).1.registration.map RegState.stepIndex) = some 7 ∧
    ¬ (((finalizeRegistration finalizeReadySession (.err err503)
        []).1.registration.map RegState.stepIndex) =
      some registrationSteps.length) ∧
    (finalizeRegistration finalizeReadySession (.err err503) []).2.1 = [] := by
  decide

/-- C1 amended: a transient (network-classified, non-409) failure of the
finalize call keeps the registration WizardState — with its cursor reset to
step count − 1, so the *last step* is re-prompted — and hands nothing to the
sync queue (the queue passes through unchanged; `src/index.ts` never calls
`enqueueRegistration`).  Separately, when a registration payload *is* in the
sync queue, a successful drain removes it, sets the owning session's auth
token, stores the returned profile, and transitions a registration-mode
session to idle. -/
theorem c1_amended (now : Nat) (outsR : Nat → ApiOutcome) :
    (∀ s reg e q, s.registration = some reg →
      reg.data.phone.getD "" ≠ "" → reg.phoneVerified = true →
      ¬ (e.info.isApiErrorInst = true ∧ e.info.status = 409) →
      isNetworkError e = true →
      (finalizeRegistration s (.err e) q).1.registration =
        some { reg with stepIndex := registrationSteps.length - 1 } ∧
      (finalizeRegistration s (.err e) q).2.1 = q ∧
      (finalizeRegistration s (.err e) q).2.2 = ["error.network"]) ∧
    (∀ t store sess token user,
      (Store.get now store t.chatId).1 = some sess →
      outsR t.chatId = .ok token user →
      (tryFlushRegistrationQueue true now outsR [t] store).1 = [] ∧
      ((tryFlushRegistrationQueue true now outsR [t] store).2) t.chatId =
        some (drainRegSuccessPatch now token user sess)) ∧
    (∀ now2 token user sess, sess.mode = SessionMode.registration →
      (drainRegSuccessPatch now2 token user sess).mode = SessionMode.idle ∧
      (drainRegSuccessPatch now2 token user sess).jwt = some token ∧
      (drainRegSuccessPatch now2 token user sess).profile = some user) := by
  refine ⟨?_, ?_, ?_⟩
  · intro s reg e q hs hphone hver hn409 hnet
    rw [finalizeRegistration_err s reg e q hs hphone hver]
    obtain ⟨h1, _, h3, h4⟩ :=
      finalizeRegistrationCall_network s reg e q hn409 hnet
    exact ⟨h1, h3, h4⟩
  · intro t store sess token user hget ho
    rw [tryFlushReg_single_success now outsR t store sess token user hget ho]
    exact ⟨rfl, Store.set_apply_self store t.chatId _⟩
  · intro now2 token user sess hmode
    unfold drainRegSuccessPatch
    simp [hmode]

/-- Witness for C1 at concrete inputs: the amended foreground behaviour on
`ApiError(503)` and the drain success for chat 5. -/
theorem c1_amended_witness :
    (finalizeRegistration finalizeReadySession (.err err503)
        []).1.registration =
      some { stepIndex := registrationSteps.length - 1, data := sampleRegData,
             phoneVerified := true } ∧
    (tryFlushRegistrationQueue true 200 (fun _ => .ok "tok" sampleProfile)
        [sampleRegTask] sampleStore).1 = [] := by
  constructor
  · exact ((c1_amended 200 (fun _ => .ok "tok" sampleProfile)).1
      finalizeReadySession
      { stepIndex := 8, data := sampleRegData, phoneVerified := true }
      err503 [] rfl (by decide) rfl (by decide) (by decide)).1
  · exact ((c1_amended 200 (fun _ => .ok "tok" sampleProfile)).2.1
      sampleRegTask sampleStore finalizeReadySession "tok" sampleProfile
      (by decide) rfl).1

/-! ### C7 — 409 conflict handling -/

/-- C7 counterexample: a background drain whose register call fails with an
HTTP 409 `ApiError` *whose body message happens to look network-related*
("connection timeout") is classified transient by `isNetworkError`, which the
drain consults **before** the 409 check: the entry is kept (so the call will
be retried next pass) and the session is *not* redirected to login — contrary
to the claim that a 409 during a drain always discards the registration and
switches the session to login without retrying. -/
theorem c7_counterexample :
    err409Net.info.isApiErrorInst = true ∧
    err409Net.info.status = 409 ∧
    (tryFlushRegistrationQueue true 200 (fun _ => .err err409Net)
      [sampleRegTask] sampleStore).1 = [sampleRegTask] ∧
    ((tryFlushRegistrationQueue true 200 (fun _ => .err err409Net)
      [sampleRegTask] sampleStore).2 5).map SessionData.mode =
      some SessionMode.registration := by
  decide

/-- C7 amended: an HTTP 409 on registration persist is handled as the claim
says — registration WizardState discarded, session mode switched to login
with the login wizard at step 0, no retry — during foreground finalize
(always) and during a background drain *provided the error is not classified
network-related*; a drain entry whose 409 error *is* network-classified (e.g.
a network-looking body message) is instead kept and retried.  Within a single
API call, a 409 response is never retried (exactly one attempt). -/
theorem c7_amended (now : Nat) (outsR : Nat → ApiOutcome) :
    (∀ s reg e q, s.registration = some reg →
      reg.data.phone.getD "" ≠ "" → reg.phoneVerified = true →
      e.info.isApiErrorInst = true → e.info.status = 409 →
      (finalizeRegistration s (.err e) q).1.registration = none ∧
      (finalizeRegistration s (.err e) q).1.mode = SessionMode.login ∧
      (finalizeRegistration s (.err e) q).1.login = some { stepIndex := 0 } ∧
      (finalizeRegistration s (.err e) q).2.1 = q) ∧
    (∀ t store sess e,
      isNetworkError e = false → e.info.isApiErrorInst = true →
      e.info.status = 409 → (Store.get now store t.chatId).1 = some sess →
      outsR t.chatId = .err e →
      (tryFlushRegistrationQueue true now outsR [t] store).1 = [] ∧
      ((tryFlushRegistrationQueue true now outsR [t] store).2) t.chatId =
        some (drainRegConflictPatch now sess) ∧
      (drainRegConflictPatch now sess).mode = SessionMode.login ∧
      (drainRegConflictPatch now sess).registration = none ∧
      (drainRegConflictPatch now sess).login = some { stepIndex := 0 }) ∧
    (∀ t store e, isNetworkError e = true → outsR t.chatId = .err e →
      tryFlushRegistrationQueue true now outsR [t] store = ([t], store)) ∧
    (∀ d ra outs bc bm stx, outs 0 = .httpError 409 bc bm stx →
      (request ra d outs).attemptsUsed = 1) := by
  refine ⟨?_, ?_, ?_, ?_⟩
  · intro s reg e q hs hphone hver hapi h409
    rw [finalizeRegistration_err s reg e q hs hphone hver]
    obtain ⟨h1, h2, h3, h4, _⟩ :=
      finalizeRegistrationCall_conflict s reg e q hapi h409
    exact ⟨h1, h2, h3, h4⟩
  · intro t store sess e hnet hapi h409 hget ho
    rw [tryFlushReg_single_conflict now outsR t store sess e hnet hapi h409
      hget ho]
    exact ⟨rfl, Store.set_apply_self store t.chatId _, rfl, rfl, rfl⟩
  · intro t store e hnet ho
    exact tryFlushReg_single_network now outsR t store e hnet ho
  · intro d ra outs bc bm stx h0
    have hc : classifyOutcome (outs 0) =
        .done (.fail (mkApiError 409 bc (some (httpErrorMessage bm stx)) none)) := by
      rw [h0]
      simp [classifyOutcome, shouldRetryStatus]
    rw [request_first_done ra d outs _ hc]

/-- Witness for C7 at concrete inputs: foreground finalize on a plain 409
redirects to login. -/
theorem c7_amended_witness :
    (finalizeRegistration finalizeReadySession (.err err409) []).1.mode =
      SessionMode.login ∧
    (finalizeRegistration finalizeReadySession (.err err409)
      []).1.registration = none := by
  have h := (c7_amended 200 (fun _ => .err err409)).1 finalizeReadySession
    { stepIndex := 8, data := sampleRegData, phoneVerified := true }
    err409 [] rfl (by decide) rfl (by decide) (by decide)
  exact ⟨h.2.1, h.1⟩

/-! ### Lemmas about trimming (C2 support) -/

theorem dropWhile_head?_false (p : Char → Bool) :
    ∀ (l : List Char) (a : Char), (l.dropWhile p).head? = some a → p a = false := by
  intro l
  induction l with
  | nil => intro a h; simp at h
  | cons x xs ih =>
    intro a h
    by_cases hx : p x = true
    · rw [List.dropWhile_cons, if_pos hx] at h
      exact ih a h
    · rw [List.dropWhile_cons, if_neg hx] at h
      simp only [List.head?_cons, Option.some.injEq] at h
      subst h
      simpa using hx

theorem dropWhile_dropWhile (p : Char → Bool) (l : List Char) :
    (l.dropWhile p).dropWhile p = l.dropWhile p := by
  induction l with
  | nil => rfl
  | cons a as ih =>
    by_cases h : p a = true
    · simp [List.dropWhile_cons, h, ih]
    · simp [List.dropWhile_cons, h]

theorem dropWhile_getLast? (p : Char → Bool) :
    ∀ (l : List Char), l.dropWhile p ≠ [] →
      (l.dropWhile p).getLast? = l.getLast? := by
  intro l
  induction l with
  | nil => intro h; simp at h
  | cons x xs ih =>
    intro h
    by_cases hx : p x = true
    · rw [List.dropWhile_cons, if_pos hx] at h ⊢
      rw [ih h]
      have hxs : xs ≠ [] := by
        intro hh
        rw [hh] at h
        simp at h
      cases xs with
      | nil => exact absurd rfl hxs
      | cons y ys => rw [List.getLast?_cons_cons]
    · rw [List.dropWhile_cons, if_neg hx]

theorem dropWhile_eq_self_of_head? (p : Char → Bool) (l : List Char)
    (h : ∀ a, l.head? = some a → p a = false) : l.dropWhile p = l := by
  cases l with
  | nil => rfl
  | cons x xs =>
    rw [List.dropWhile_cons, if_neg (by simp [h x rfl])]

theorem trimCharList_idem (l : List Char) :
    trimCharList (trimCharList l) = trimCharList l := by
  unfold trimCharList
  set ws := Char.isWhitespace with hws
  set A := l.dropWhile ws with hA
  set B := A.reverse.dropWhile ws with hB
  have hhead : ∀ a, B.reverse.head? = some a → ws a = false := by
    intro a ha
    rw [List.head?_reverse] at ha
    by_cases hBnil : B = []
    · rw [hBnil] at ha; simp at ha
    · rw [hB, dropWhile_getLast? ws A.reverse (hB ▸ hBnil)] at ha
      rw [List.getLast?_reverse] at ha
      rw [hA] at ha
      exact dropWhile_head?_false ws l a ha
  rw [dropWhile_eq_self_of_head? ws B.reverse hhead]
  rw [List.reverse_reverse]
  rw [hB, dropWhile_dropWhile]

theorem strTrim_idem (s : String) : strTrim (strTrim s) = strTrim s := by
  unfold strTrim
  rw [show (String.mk (trimCharList s.data)).data = trimCharList s.data from rfl]
  rw [trimCharList_idem]

/-! ### `persistLocationSelection` leaves the wizard state alone -/

theorem persistLocation_registration (b : Bool) (s : SessionData)
    (c v : String) (o : PersistOutcome) (pq : List ProfilePatchTask) :
    (persistLocationSelection b s c v o pq).1.registration = s.registration := by
  unfold persistLocationSelection
  cases o with
  | online p =>
    by_cases h : (s.jwt.isSome && b) = true
    · simp [h]
    · simp only [h]
      cases hp : s.profile <;> simp [hp]
  | failed e =>
    by_cases h : (s.jwt.isSome && b) = true
    · simp only [h]
      cases hp : s.profile <;> simp [hp]
    · simp only [h]
      cases hp : s.profile <;> simp [hp]

theorem lowerEq_empty_iff (c : String) : (lowerEq c "" = true) ↔ c = "" := by
  unfold lowerEq strLower
  rw [beq_iff_eq]
  constructor
  · intro h
    have h3 : c.data.map Char.toLower = [] := by
      have h2 := congrArg String.data h
      simpa using h2
    have h4 : c.data = [] := List.map_eq_nil_iff.mp h3
    rw [String.ext_iff]
    simpa using h4
  · intro h
    subst h
    rfl

/-- Lemma: `commitStateSelection` advances the cursor by exactly one and reports
the save (online or queued). -/
theorem commitState_parts (b : Bool) (s : SessionData) (reg : RegState)
    (country v : String) (up : PersistOutcome) (pq : List ProfilePatchTask) :
    ((commitStateSelection b s reg country v up pq).1.registration.map
        RegState.stepIndex) = some (reg.stepIndex + 1) ∧
    (commitStateSelection b s reg country v up pq).2.2 ≠ [] := by
  have hreg := persistLocation_registration b
    { s with
      registration := some { reg with
        data := { reg.data with stateRegion := some v },
        stateRetryCount := 0,
        stepIndex := reg.stepIndex + 1 } }
    country v up pq
  unfold commitStateSelection
  rcases hE : persistLocationSelection b
    { s with
      registration := some { reg with
        data := { reg.data with stateRegion := some v },
        stateRetryCount := 0,
        stepIndex := reg.stepIndex + 1 } }
    country v up pq with ⟨s2, pq2, online⟩
  rw [hE] at hreg
  simp at hreg
  simp only [hE]
  simp [hreg]

/-! ### Location-catalog fixtures (the catalogs themselves live outside
`src/`; these concrete instantiations follow the spec's Scenario A: Germany
has no enumerated state list, the United States does). -/

def sampleCountries : List String := ["Germany", "United States"]

def sampleStates : String → List String :=
  fun c => if c = "United States" then ["California", "Texas"] else []

/-- A session whose registration wizard sits on the `filingStatus` select
step. -/
def selectStepSession : SessionData :=
  { chatId := 5, telegramId := 9, language := "en", mode := .registration,
    registration := some
      { stepIndex := 6,
        data := { country := some "Germany", stateRegion := some "Berlin" },
        phoneVerified := true },
    lastActivity := 100 }

/-- A session whose registration wizard sits on the email step. -/
def emailStepSession : SessionData :=
  { chatId := 5, telegramId := 9, language := "en", mode := .registration,
    registration := some { stepIndex := 2, data := {}, phoneVerified := true },
    lastActivity := 100 }

/-! ### C2 — wizard step/cursor discipline -/

/-- C2 counterexample: "hello" typed at the `filingStatus` *select* step is
not a valid input for that step (selects are button-driven) and is not a
navigation directive, yet the handler emits **no** message at all — the
cursor stays put but the step is not re-prompted with a validation message as
the claim requires. -/
theorem c2_counterexample :
    isNavInput (strTrim "hello") = false ∧
    registrationSteps[(6 : Nat)]? =
      some ⟨RegField.filingStatus, StepType.select⟩ ∧
    stepAccepts sampleCountries sampleStates isValidStateRegion
      { stepIndex := 6,
        data := { country := some "Germany", stateRegion := some "Berlin" },
        phoneVerified := true }
      ⟨RegField.filingStatus, StepType.select⟩ "hello" = false ∧
    (handleRegistrationResponse sampleCountries sampleStates
      isValidStateRegion true selectStepSession "hello"
      (.failed (plainJsError "x" none)) []).2.2 = [] ∧
    ((handleRegistrationResponse sampleCountries sampleStates
      isValidStateRegion true selectStepSession "hello"
      (.failed (plainJsError "x" none)) []).1.registration.map
        RegState.stepIndex) = some 6 := by
  decide

/-- C2 amended: for every registration step and every non-navigation text
input — a valid input advances the cursor by exactly one, never past the
step count; an invalid input leaves the cursor unchanged, and the handler
sends a validation message **except on the button-driven select/optional
steps, where stray text is ignored silently**.  (`countries`/`states` are
the location catalogs and `stateValid` the free-text state validator, all
external to `src/`; the state step is assumed reachable, i.e. a country has
been chosen.) -/
theorem c2_amended (countries : List String) (states : String → List String)
    (stateValid : String → Bool) (baseUrlSet : Bool) (s : SessionData)
    (reg : RegState) (step : RegStepDef) (input : String)
    (up : PersistOutcome) (pq : List ProfilePatchTask)
    (hs : s.registration = some reg)
    (hstep : registrationSteps[reg.stepIndex]? = some step)
    (hnav : isNavInput (strTrim input) = false)
    (hcountry : step.type = StepType.state → reg.data.country.isSome = true)
    (hne : "" ∉ countries) (hnes : ∀ c, "" ∉ states c) :
    (stepAccepts countries states stateValid reg step input = true →
      ((handleRegistrationResponse countries states stateValid baseUrlSet s
          input up pq).1.registration.map RegState.stepIndex) =
        some (reg.stepIndex + 1) ∧
      reg.stepIndex + 1 ≤ registrationSteps.length) ∧
    (stepAccepts countries states stateValid reg step input = false →
      ((handleRegistrationResponse countries states stateValid baseUrlSet s
          input up pq).1.registration.map RegState.stepIndex) =
        some reg.stepIndex ∧
      ((step.type = StepType.select ∨ step.type = StepType.optional) →
        (handleRegistrationResponse countries states stateValid baseUrlSet s
          input up pq).2.2 = []) ∧
      (step.type ≠ StepType.select → step.type ≠ StepType.optional →
        (handleRegistrationResponse countries states stateValid baseUrlSet s
          input up pq).2.2 ≠ [])) := by
  have hidem := strTrim_idem input
  have hC : strTrim input ≠ NAV_CANCEL := by
    intro h
    rw [h] at hnav
    simp [isNavInput] at hnav
  have hB : strTrim input ≠ NAV_BACK := by
    intro h
    rw [h] at hnav
    simp [isNavInput] at hnav
  have hP : strTrim input ≠ NAV_PREV := by
    intro h
    rw [h] at hnav
    simp [isNavInput] at hnav
  have hN : strTrim input ≠ NAV_NEXT := by
    intro h
    rw [h] at hnav
    simp [isNavInput] at hnav
  obtain ⟨i, d, pv, rc⟩ := reg
  have hlen : i < registrationSteps.length := (List.getElem?_eq_some.mp hstep).1
  have hlen8 : i < 8 := by simpa [registrationSteps] using hlen
  interval_cases i
  -- step 0: phone
  · rw [show registrationSteps[(0 : Nat)]? =
      some (⟨RegField.phone, StepType.phone⟩ : RegStepDef) from rfl] at hstep
    injection hstep with hstepv
    subst hstepv
    constructor
    · intro hacc
      refine ⟨?_, by simp [registrationSteps]⟩
      simp only [stepAccepts, Bool.and_eq_true, bne_iff_ne, ne_eq] at hacc
      obtain ⟨h1, h2⟩ := hacc
      simp only [handleRegistrationResponse, hs,
        show registrationSteps[(0 : Nat)]? =
          some ⟨RegField.phone, StepType.phone⟩ from rfl]
      rw [if_neg h1, if_neg (by simp [h2])]
      simp
    · intro hrej
      simp only [stepAccepts] at hrej
      simp only [handleRegistrationResponse, hs,
        show registrationSteps[(0 : Nat)]? =
          some ⟨RegField.phone, StepType.phone⟩ from rfl]
      by_cases h1 : strTrim input = ""
      · rw [if_pos h1]
        refine ⟨by simp [hs], ?_, ?_⟩
        · intro h
          rcases h with h | h <;> exact absurd h (by decide)
        · intro _ _
          simp
      · rw [if_neg h1]
        have hbne : (strTrim input != "") = true := by simpa using h1
        have h2 : ¬ isValidPhone (normalizePhone (strTrim input)) = true := by
          intro hv
          rw [hbne, hv] at hrej
          simp at hrej
        rw [if_pos h2]
        refine ⟨by simp [hs], ?_, ?_⟩
        · intro h
          rcases h with h | h <;> exact absurd h (by decide)
        · intro _ _
          simp
  -- step 1: full name (free text)
  · rw [show registrationSteps[(1 : Nat)]? =
      some (⟨RegField.fullName, StepType.text⟩ : RegStepDef) from rfl] at hstep
    injection hstep with hstepv
    subst hstepv
    constructor
    · intro hacc
      refine ⟨?_, by simp [registrationSteps]⟩
      simp only [stepAccepts, bne_iff_ne, ne_eq] at hacc
      simp only [handleRegistrationResponse, hs,
        show registrationSteps[(1 : Nat)]? =
          some ⟨RegField.fullName, StepType.text⟩ from rfl]
      rw [if_neg hacc]
      simp
    · intro hrej
      simp only [stepAccepts] at hrej
      have h1 : strTrim input = "" := by simpa using hrej
      simp only [handleRegistrationResponse, hs,
        show registrationSteps[(1 : Nat)]? =
          some ⟨RegField.fullName, StepType.text⟩ from rfl]
      rw [if_pos h1]
      refine ⟨by simp [hs], ?_, ?_⟩
      · intro h
        rcases h with h | h <;> exact absurd h (by decide)
      · intro _ _
        simp
  -- step 2: email
  · rw [show registrationSteps[(2 : Nat)]? =
      some (⟨RegField.email, StepType.email⟩ : RegStepDef) from rfl] at hstep
    injection hstep with hstepv
    subst hstepv
    constructor
    · intro hacc
      refine ⟨?_, by simp [registrationSteps]⟩
      simp only [stepAccepts] at hacc
      simp only [handleRegistrationResponse, hs,
        show registrationSteps[(2 : Nat)]? =
          some ⟨RegField.email, StepType.email⟩ from rfl]
      rw [if_neg (by simp [hacc])]
      simp
    · intro hrej
      simp only [stepAccepts] at hrej
      simp only [handleRegistrationResponse, hs,
        show registrationSteps[(2 : Nat)]? =
          some ⟨RegField.email, StepType.email⟩ from rfl]
      rw [if_pos (by simp [hrej])]
      refine ⟨by simp [hs], ?_, ?_⟩
      · intro h
        rcases h with h | h <;> exact absurd h (by decide)
      · intro _ _
        simp
  -- step 3: date of birth
  · rw [show registrationSteps[(3 : Nat)]? =
      some (⟨RegField.dob, StepType.date⟩ : RegStepDef) from rfl] at hstep
    injection hstep with hstepv
    subst hstepv
    constructor
    · intro hacc
      refine ⟨?_, by simp [registrationSteps]⟩
      simp only [stepAccepts] at hacc
      simp only [handleRegistrationResponse, hs,
        show registrationSteps[(3 : Nat)]? =
          some ⟨RegField.dob, StepType.date⟩ from rfl]
      rw [if_neg (by simp [hacc])]
      simp
    · intro hrej
      simp only [stepAccepts] at hrej
      simp only [handleRegistrationResponse, hs,
        show registrationSteps[(3 : Nat)]? =
          some ⟨RegField.dob, StepType.date⟩ from rfl]
      rw [if_pos (by simp [hrej])]
      refine ⟨by simp [hs], ?_, ?_⟩
      · intro h
        rcases h with h | h <;> exact absurd h (by decide)
      · intro _ _
        simp
  -- step 4: country (paginated select over the catalog)
  · rw [show registrationSteps[(4 : Nat)]? =
      some (⟨RegField.country, StepType.country⟩ : RegStepDef) from rfl] at hstep
    injection hstep with hstepv
    subst hstepv
    constructor
    · intro hacc
      refine ⟨?_, by simp [registrationSteps]⟩
      simp only [stepAccepts] at hacc
      have htne : strTrim input ≠ "" := by
        intro h0
        rw [h0] at hacc
        obtain ⟨c, hcmem, hlc⟩ := List.any_eq_true.mp hacc
        exact hne (by rwa [(lowerEq_empty_iff c).mp hlc] at hcmem)
      simp only [handleRegistrationResponse, hs,
        show registrationSteps[(4 : Nat)]? =
          some ⟨RegField.country, StepType.country⟩ from rfl]
      simp only [handleCountryInput, hidem]
      rw [if_neg htne, if_neg hC, if_neg hB, if_neg hP, if_neg hN]
      cases hfind : countries.find? (fun c => lowerEq c (strTrim input)) with
      | none =>
        exfalso
        rw [List.find?_eq_none] at hfind
        obtain ⟨c, hcmem, hlc⟩ := List.any_eq_true.mp hacc
        exact hfind c hcmem hlc
      | some m => simp [hfind]
    · intro hrej
      simp only [stepAccepts] at hrej
      simp only [handleRegistrationResponse, hs,
        show registrationSteps[(4 : Nat)]? =
          some ⟨RegField.country, StepType.country⟩ from rfl]
      simp only [handleCountryInput, hidem]
      by_cases htext : strTrim input = ""
      · rw [if_pos htext]
        refine ⟨by simp [hs], ?_, ?_⟩
        · intro h
          rcases h with h | h <;> exact absurd h (by decide)
        · intro _ _
          simp
      · rw [if_neg htext, if_neg hC, if_neg hB, if_neg hP, if_neg hN]
        have hfind : countries.find? (fun c => lowerEq c (strTrim input)) = none := by
          rw [List.find?_eq_none]
          intro c hc hl
          have hany : (countries.any fun x => lowerEq x (strTrim input)) = true := by
            rw [List.any_eq_true]
            exact ⟨c, hc, hl⟩
          rw [hrej] at hany
          exact absurd hany (by simp)
        rw [hfind]
        refine ⟨by simp [hs], ?_, ?_⟩
        · intro h
          rcases h with h | h <;> exact absurd h (by decide)
        · intro _ _
          simp
  -- step 5: state/region (enumerated or free-text fallback)
  · rw [show registrationSteps[(5 : Nat)]? =
      some (⟨RegField.stateRegion, StepType.state⟩ : RegStepDef) from rfl] at hstep
    injection hstep with hstepv
    subst hstepv
    obtain ⟨country, hct⟩ := Option.isSome_iff_exists.mp (hcountry rfl)
    have hct2 : d.country = some country := hct
    constructor
    · intro hacc
      refine ⟨?_, by simp [registrationSteps]⟩
      simp only [stepAccepts, hct2] at hacc
      simp only [handleRegistrationResponse, hs,
        show registrationSteps[(5 : Nat)]? =
          some ⟨RegField.stateRegion, StepType.state⟩ from rfl]
      simp only [handleStateInput, hidem, hct2]
      by_cases hlist : states country = []
      · rw [if_neg (by simp [hlist])] at hacc
        rw [Bool.and_eq_true, bne_iff_ne] at hacc
        obtain ⟨htne, hval⟩ := hacc
        rw [if_neg htne, if_neg hC, if_neg hB, if_neg (by simp [hlist]),
          if_neg (by simp [hval])]
        exact (commitState_parts baseUrlSet s ⟨5, d, pv, rc⟩ country
          (strTrim input) up pq).1
      · rw [if_pos (by simp [hlist])] at hacc
        have htne : strTrim input ≠ "" := by
          intro h0
          rw [h0] at hacc
          obtain ⟨c, hcmem, hlc⟩ := List.any_eq_true.mp hacc
          exact hnes country (by
            rwa [(lowerEq_empty_iff c).mp hlc] at hcmem)
        rw [if_neg htne, if_neg hC, if_neg hB, if_pos (by simp [hlist]),
          if_neg hP, if_neg hN]
        cases hfind : (states country).find?
            (fun item => lowerEq item (strTrim input)) with
        | none =>
          exfalso
          rw [List.find?_eq_none] at hfind
          obtain ⟨c, hcmem, hlc⟩ := List.any_eq_true.mp hacc
          exact hfind c hcmem hlc
        | some m =>
          simpa using (commitState_parts baseUrlSet s ⟨5, d, pv, rc⟩ country m
            up pq).1
    · intro hrej
      simp only [stepAccepts, hct2] at hrej
      simp only [handleRegistrationResponse, hs,
        show registrationSteps[(5 : Nat)]? =
          some ⟨RegField.stateRegion, StepType.state⟩ from rfl]
      simp only [handleStateInput, hidem, hct2]
      by_cases htext : strTrim input = ""
      · rw [if_pos htext]
        refine ⟨by simp [hs], ?_, ?_⟩
        · intro h
          rcases h with h | h <;> exact absurd h (by decide)
        · intro _ _
          simp
      · rw [if_neg htext, if_neg hC, if_neg hB]
        by_cases hlist : states country = []
        · rw [if_neg (by simp [hlist])] at hrej ⊢
          have hval : ¬ stateValid (strTrim input) = true := by
            intro hv
            have hbne : (strTrim input != "") = true := by simpa using htext
            rw [hbne, hv] at hrej
            exact absurd hrej (by simp)
          rw [if_pos hval]
          refine ⟨by simp [hs], ?_, ?_⟩
          · intro h
            rcases h with h | h <;> exact absurd h (by decide)
          · intro _ _
            simp
        · rw [if_pos (by simp [hlist])] at hrej ⊢
          rw [if_neg hP, if_neg hN]
          have hfind : (states country).find?
              (fun item => lowerEq item (strTrim input)) = none := by
            rw [List.find?_eq_none]
            intro c hc hl
            have hany : ((states country).any
                fun item => lowerEq item (strTrim input)) = true := by
              rw [List.any_eq_true]
              exact ⟨c, hc, hl⟩
            rw [hrej] at hany
            exact absurd hany (by simp)
          rw [hfind]
          refine ⟨by simp [hs], ?_, ?_⟩
          · intro h
            rcases h with h | h <;> exact absurd h (by decide)
          · intro _ _
            simp
  -- step 6: filing status (button select)
  · rw [show registrationSteps[(6 : Nat)]? =
      some (⟨RegField.filingStatus, StepType.select⟩ : RegStepDef) from rfl] at hstep
    injection hstep with hstepv
    subst hstepv
    constructor
    · intro hacc
      simp only [stepAccepts] at hacc
      exact absurd hacc (by decide)
    · intro _
      simp only [handleRegistrationResponse, hs,
        show registrationSteps[(6 : Nat)]? =
          some ⟨RegField.filingStatus, StepType.select⟩ from rfl]
      refine ⟨by simp [hs], ?_, ?_⟩
      · intro _
        trivial
      · intro h _
        exact absurd rfl h
  -- step 7: income type (button select)
  · rw [show registrationSteps[(7 : Nat)]? =
      some (⟨RegField.incomeType, StepType.select⟩ : RegStepDef) from rfl] at hstep
    injection hstep with hstepv
    subst hstepv
    constructor
    · intro hacc
      simp only [stepAccepts] at hacc
      exact absurd hacc (by decide)
    · intro _
      simp only [handleRegistrationResponse, hs,
        show registrationSteps[(7 : Nat)]? =
          some ⟨RegField.incomeType, StepType.select⟩ from rfl]
      refine ⟨by simp [hs], ?_, ?_⟩
      · intro _
        trivial
      · intro h _
        exact absurd rfl h

/-- Witness for C2 at a concrete input: "A@B.co" at the email step advances
the cursor from 2 to 3. -/
theorem c2_amended_witness :
    ((handleRegistrationResponse sampleCountries sampleStates
        isValidStateRegion true emailStepSession "A@B.co"
        (.failed (plainJsError "x" none)) []).1.registration.map
      RegState.stepIndex) = some (2 + 1) := by
  have h := (c2_amended sampleCountries sampleStates isValidStateRegion true
    emailStepSession { stepIndex := 2, data := {}, phoneVerified := true }
    ⟨RegField.email, StepType.email⟩ "A@B.co"
    (.failed (plainJsError "x" none)) [] rfl (by decide) (by decide)
    (by intro h2; exact absurd h2 (by decide)) (by decide)
    (by
      intro c
      unfold sampleStates
      by_cases hc : c = "United States" <;> simp [hc])).1 (by decide)
  exact h.1

end TaxBot
